import Mathlib

/-!
Shallow embedding of the schema-reconciler scripts
`auto_migrate_notifications.py` (function `auto_migrate_notification_tables`)
and `fix_notification_schema.py` (function `fix_notification_schema`).

The database is modelled as explicit state: each managed table is an
optional record holding the observed `user_id` column type (a string, as
reported by `information_schema.columns.data_type`), default expressions,
and the rows.  Every `cursor.execute` of the Python source is recorded as
an `Event` in a trace, and failures of individual statements are injected
through a `Faults` oracle (the external connection provider `db_connection`
is opaque in the source, so engine-side errors are nondeterministic from
the script's point of view).  A connection carries both the current
in-transaction state and the last committed snapshot; `commit` publishes
the current state, and an exception path that exits the `with` block
without committing leaves the committed snapshot untouched (rollback on
release).

A non-`bigint` `user_id` column is modelled as 32-bit integer storage
(the defect class the scripts repair), so an INSERT of a value outside
the 32-bit signed range into such a column fails with an engine error,
while it succeeds on a `bigint`/`int8` column.
-/

/-- A stored value of one of the boolean preference columns: either the
legacy integer encoding or a proper boolean.  `toText` renders it the way
the SQL cast `col::text` does. -/
inductive Cell where
  | intCell (n : Int)
  | boolCell (b : Bool)
  deriving Repr, DecidableEq

def Cell.toText : Cell → String
  | .intCell n => toString n
  | .boolCell true => "true"
  | .boolCell false => "false"

/-- The row-rewrite of `fix_notification_schema` lines 153-160:
`CASE WHEN col::text = '1' THEN TRUE WHEN col::text = '0' THEN FALSE ELSE col END`. -/
def fixBoolCell (c : Cell) : Cell :=
  if c.toText = "1" then .boolCell true
  else if c.toText = "0" then .boolCell false
  else c

/-- One row of `notification_preferences`. -/
structure PrefRow where
  user_id : Int
  comment_notifications : Cell
  daily_digest : Cell
  trending_alerts : Cell
  deriving Repr, DecidableEq

/-- The live `notification_preferences` table: observed `user_id` type and
default, whether the implicit SERIAL sequence object exists, the default
expressions of the three boolean columns, and the rows. -/
structure PrefTable where
  userIdType : String
  userIdDefault : Option String
  seqExists : Bool
  commentDefault : Option String
  digestDefault : Option String
  trendingDefault : Option String
  rows : List PrefRow
  deriving Repr, DecidableEq

/-- The live `notification_history` table: observed `user_id` type and the
rows as (user_id, notification_type) pairs (the probe filters on
`notification_type`). -/
structure HistTable where
  userIdType : String
  rows : List (Int × String)
  deriving Repr, DecidableEq

/-- The live `post_subscriptions` table: observed `user_id` type and the
rows' `user_id` values. -/
structure SubsTable where
  userIdType : String
  rows : List Int
  deriving Repr, DecidableEq

/-- The database state: each managed table is `none` when absent.
`trending_cache` is only ever tested for existence. -/
structure DB where
  prefs : Option PrefTable
  hist : Option HistTable
  subs : Option SubsTable
  trendingExists : Bool
  deriving Repr, DecidableEq

/-- One `cursor.execute` of the source, by statement kind and target. -/
inductive Event where
  | columnTypeQuery (table : String)
  | tableExistsQuery (table : String)
  | boolColumnsQuery (table : String)
  | countQuery (table : String)
  | alterUserIdType (table : String)
  | alterBoolDefaults (table : String)
  | alterDropDefault (table : String) (col : String)
  | alterSetDefault (table : String) (col : String)
  | dropSequence (seq : String)
  | dropTable (table : String)
  | createTable (table : String)
  | insertRow (table : String)
  | updateRows (table : String) (col : String)
  | deleteRows (table : String)
  | commit
  deriving Repr, DecidableEq

/-- Data-definition statements (ALTER / DROP / CREATE). -/
def Event.isDDL : Event → Bool
  | .alterUserIdType _ | .alterBoolDefaults _ | .alterDropDefault _ _
  | .alterSetDefault _ _ | .dropSequence _ | .dropTable _ | .createTable _ => true
  | _ => false

/-- Destructive statements: dropping a table or deleting rows. -/
def Event.isDestructive : Event → Bool
  | .dropTable _ | .deleteRows _ => true
  | _ => false

/-- A scoped connection: current in-transaction state, last committed
snapshot, and the chronological statement trace. -/
structure Conn where
  cur : DB
  committed : DB
  tr : List Event
  deriving Repr, DecidableEq

def Conn.init (db : DB) : Conn := ⟨db, db, []⟩

def emit (c : Conn) (e : Event) : Conn := { c with tr := c.tr ++ [e] }

def doCommit (c : Conn) : Conn :=
  { c with committed := c.cur, tr := c.tr ++ [Event.commit] }

def setPrefs (c : Conn) (t : Option PrefTable) : Conn :=
  { c with cur := { c.cur with prefs := t } }

def setHist (c : Conn) (t : Option HistTable) : Conn :=
  { c with cur := { c.cur with hist := t } }

def setSubs (c : Conn) (t : Option SubsTable) : Conn :=
  { c with cur := { c.cur with subs := t } }

/-- Statement-failure oracle: which engine-side errors the opaque
connection raises on this run.  Each field corresponds to a statement (or
statement group) of the source; the all-false oracle is a fault-free run. -/
structure Faults where
  connectionFails : Bool
  columnTypeQueryFails : String → Bool
  tableExistsQueryFails : String → Bool
  alterUserIdFails : String → Bool
  dropSequenceFails : Bool
  alterBoolDefaultsFails : Bool
  boolColumnsQueryFails : Bool
  boolColFixFails : String → Bool
  recreateFails : String → Bool
  insertFails : String → Bool
  deleteFails : Bool

def Faults.none : Faults :=
  ⟨false, fun _ => false, fun _ => false, fun _ => false, false, false, false,
   fun _ => false, fun _ => false, fun _ => false, false⟩

/-- `data_type.lower()`: catalog type names are ASCII, where Python's
`str.lower` coincides with per-character ASCII lowering. -/
def lowerString (s : String) : String := ⟨s.data.map Char.toLower⟩

/-- `data_type.lower() not in ['bigint', 'int8']` — its complement. -/
def acceptableType (s : String) : Bool :=
  lowerString s == "bigint" || lowerString s == "int8"

/-- 32-bit signed range check: whether a value fits an unmigrated
INTEGER column. -/
def fitsInt32 (v : Int) : Bool :=
  decide (-2147483648 ≤ v) && decide (v ≤ 2147483647)

/-- The probe value `test_user_id = 1298849354` used by both scripts. -/
def testUserId : Int := 1298849354

/-- Whether an INSERT of `v` into a `user_id` column of observed type `ty`
succeeds at the engine level: always on a 64-bit column, and only for
values in the 32-bit range on an unmigrated column. -/
def insertOK (ty : String) (v : Int) : Bool :=
  acceptableType ty || fitsInt32 v

/-- The observed `user_id` data type of a managed table, `none` when the
`information_schema.columns` query returns no row (table absent). -/
def userIdTypeOf (db : DB) : String → Option String
  | "notification_preferences" => db.prefs.map (·.userIdType)
  | "notification_history" => db.hist.map (·.userIdType)
  | "post_subscriptions" => db.subs.map (·.userIdType)
  | _ => none

def tableExists (db : DB) : String → Bool
  | "notification_preferences" => db.prefs.isSome
  | "notification_history" => db.hist.isSome
  | "post_subscriptions" => db.subs.isSome
  | "trending_cache" => db.trendingExists
  | _ => false

/-- `tables_to_check` of `auto_migrate_notification_tables` (line 31). -/
def tablesToCheck : List String :=
  ["notification_preferences", "notification_history", "post_subscriptions"]

/-- Detection loop of `auto_migrate_notification_tables` lines 33-55: per
table, query the observed `user_id` type; a query failure is caught and
the loop continues; the loop breaks as soon as one observed type is not
acceptable. -/
def detectLoop (f : Faults) : List String → Conn → Bool × Conn
  | [], c => (false, c)
  | t :: ts, c =>
    let c := emit c (.columnTypeQuery t)
    if f.columnTypeQueryFails t then detectLoop f ts c
    else match userIdTypeOf c.cur t with
      | Option.none => detectLoop f ts c
      | some ty => if acceptableType ty then detectLoop f ts c else (true, c)

/-- `notification_preferences` block of `auto_migrate_notification_tables`
lines 64-107: existence check, fresh type re-check, in-place ALTER with
lossless cast and DROP DEFAULT, best-effort sequence drop (inner
`try/except: pass`), boolean-default ALTER.  Any statement failure is
caught by the block's `except` (logged warning) and the function moves on
to the next table's block. -/
def migratePrefsAuto (f : Faults) (c : Conn) : Conn :=
  let c := emit c (.tableExistsQuery "notification_preferences")
  if f.tableExistsQueryFails "notification_preferences" then c
  else match c.cur.prefs with
  | Option.none => c
  | some pt =>
    let c := emit c (.columnTypeQuery "notification_preferences")
    if f.columnTypeQueryFails "notification_preferences" then c
    else if acceptableType pt.userIdType then c
    else
      let c := emit c (.alterUserIdType "notification_preferences")
      if f.alterUserIdFails "notification_preferences" then c
      else
        let c := setPrefs c (some { pt with userIdType := "bigint", userIdDefault := Option.none })
        let c := emit c (.dropSequence "notification_preferences_user_id_seq")
        let c :=
          if f.dropSequenceFails then c
          else match c.cur.prefs with
            | Option.none => c
            | some pt2 => setPrefs c (some { pt2 with seqExists := false })
        let c := emit c (.alterBoolDefaults "notification_preferences")
        if f.alterBoolDefaultsFails then c
        else match c.cur.prefs with
          | Option.none => c
          | some pt3 =>
            setPrefs c (some { pt3 with
              commentDefault := some "true", digestDefault := some "true",
              trendingDefault := some "true" })

/-- `notification_history` block of `auto_migrate_notification_tables`
lines 110-135: existence check, fresh type re-check, in-place ALTER with
lossless cast; failures caught at block level. -/
def migrateHistAuto (f : Faults) (c : Conn) : Conn :=
  let c := emit c (.tableExistsQuery "notification_history")
  if f.tableExistsQueryFails "notification_history" then c
  else match c.cur.hist with
  | Option.none => c
  | some ht =>
    let c := emit c (.columnTypeQuery "notification_history")
    if f.columnTypeQueryFails "notification_history" then c
    else if acceptableType ht.userIdType then c
    else
      let c := emit c (.alterUserIdType "notification_history")
      if f.alterUserIdFails "notification_history" then c
      else setHist c (some { ht with userIdType := "bigint" })

/-- `post_subscriptions` block of `auto_migrate_notification_tables`
lines 138-163: same shape as the history block. -/
def migrateSubsAuto (f : Faults) (c : Conn) : Conn :=
  let c := emit c (.tableExistsQuery "post_subscriptions")
  if f.tableExistsQueryFails "post_subscriptions" then c
  else match c.cur.subs with
  | Option.none => c
  | some st =>
    let c := emit c (.columnTypeQuery "post_subscriptions")
    if f.columnTypeQueryFails "post_subscriptions" then c
    else if acceptableType st.userIdType then c
    else
      let c := emit c (.alterUserIdType "post_subscriptions")
      if f.alterUserIdFails "post_subscriptions" then c
      else setSubs c (some { st with userIdType := "bigint" })

/-- Validation probe of `auto_migrate_notification_tables` lines 168-196:
upsert into `notification_preferences` (`ON CONFLICT DO UPDATE` on the
`user_id` key), insert a `migration_test` row into
`notification_history`, commit, delete the `migration_test` rows, commit.
Any probe failure is caught and makes the function return `False`; the
schema commit already issued is not rolled back.  An inserted preference
row's unspecified boolean columns take the column defaults, modelled as
logical true (the target default). -/
def probeAuto (f : Faults) (c : Conn) : Bool × Conn :=
  let c := emit c (.insertRow "notification_preferences")
  match c.cur.prefs with
  | Option.none => (false, c)
  | some pt =>
    if f.insertFails "notification_preferences" || !insertOK pt.userIdType testUserId then
      (false, c)
    else
      let newRows :=
        if pt.rows.any (fun r => r.user_id == testUserId) then
          pt.rows.map (fun r =>
            if r.user_id == testUserId then { r with comment_notifications := .boolCell true }
            else r)
        else
          pt.rows ++ [⟨testUserId, .boolCell true, .boolCell true, .boolCell true⟩]
      let c := setPrefs c (some { pt with rows := newRows })
      let c := emit c (.insertRow "notification_history")
      match c.cur.hist with
      | Option.none => (false, c)
      | some ht =>
        if f.insertFails "notification_history" || !insertOK ht.userIdType testUserId then
          (false, c)
        else
          let c := setHist c (some { ht with rows := ht.rows ++ [(testUserId, "migration_test")] })
          let c := doCommit c
          let c := emit c (.deleteRows "notification_history")
          if f.deleteFails then (false, c)
          else
            let c :=
              match c.cur.hist with
              | Option.none => c
              | some ht2 =>
                setHist c (some { ht2 with rows := ht2.rows.filter (fun r => r.2 ≠ "migration_test") })
            (true, doCommit c)

/-- `auto_migrate_notification_tables` (lines 12-203): skip entirely on a
non-PostgreSQL backend; detect whether any managed table's `user_id` type
is unacceptable; if so run the three per-table repair blocks, commit once,
then run the validation probe.  Only connection acquisition failure
reaches the outer handler. -/
def auto_migrate_notification_tables (usePostgresql : Bool) (f : Faults) (db : DB) :
    Bool × Conn :=
  if !usePostgresql then (true, Conn.init db)
  else if f.connectionFails then (false, Conn.init db)
  else
    let c := Conn.init db
    let (needed, c) := detectLoop f tablesToCheck c
    if !needed then (true, c)
    else
      let c := migratePrefsAuto f c
      let c := migrateHistAuto f c
      let c := migrateSubsAuto f c
      let c := doCommit c
      probeAuto f c

/-- `tables_to_check` of `fix_notification_schema` (line 27). -/
def tablesToCheckFix : List String :=
  ["notification_preferences", "notification_history", "post_subscriptions", "trending_cache"]

/-- Fresh `notification_preferences` as created by the recreate path of
`fix_notification_schema` lines 63-76: BIGINT key, boolean defaults TRUE,
no rows. -/
def freshPrefs : PrefTable :=
  ⟨"bigint", Option.none, false, some "true", some "true", some "true", []⟩

/-- Destructive recreate of one table (`fix_notification_schema`
lines 62-112): `DROP TABLE IF EXISTS ... CASCADE` then `CREATE TABLE`
from the target schema.  A statement failure propagates to the
function-level handler (`.error`). -/
def recreateTable (f : Faults) (c : Conn) (t : String) : Except Conn Conn :=
  let c := emit c (.dropTable t)
  if f.recreateFails t then .error c
  else
    let c := emit c (.createTable t)
    if t == "notification_preferences" then .ok (setPrefs c (some freshPrefs))
    else if t == "notification_history" then .ok (setHist c (some ⟨"bigint", []⟩))
    else if t == "post_subscriptions" then .ok (setSubs c (some ⟨"bigint", []⟩))
    else .ok c

def setColDefault (c : Conn) (col : String) (d : Option String) : Conn :=
  match c.cur.prefs with
  | Option.none => c
  | some pt =>
    if col == "comment_notifications" then setPrefs c (some { pt with commentDefault := d })
    else if col == "daily_digest" then setPrefs c (some { pt with digestDefault := d })
    else if col == "trending_alerts" then setPrefs c (some { pt with trendingDefault := d })
    else c

def updatePrefCol (c : Conn) (col : String) (g : Cell → Cell) : Conn :=
  match c.cur.prefs with
  | Option.none => c
  | some pt =>
    let rows := pt.rows.map (fun r =>
      if col == "comment_notifications" then { r with comment_notifications := g r.comment_notifications }
      else if col == "daily_digest" then { r with daily_digest := g r.daily_digest }
      else if col == "trending_alerts" then { r with trending_alerts := g r.trending_alerts }
      else r)
    setPrefs c (some { pt with rows := rows })

/-- Per-boolean-column fix of `fix_notification_schema` lines 136-167:
DROP DEFAULT, SET DEFAULT TRUE, rewrite legacy `'1'`/`'0'` values.  The
column's `try/except` catches a failure (modelled as hitting the first
statement) and continues with the next column. -/
def fixBoolCol (f : Faults) (c : Conn) (col : String) : Conn :=
  let c := emit c (.alterDropDefault "notification_preferences" col)
  if f.boolColFixFails col then c
  else
    let c := setColDefault c col Option.none
    let c := emit c (.alterSetDefault "notification_preferences" col)
    let c := setColDefault c col (some "true")
    let c := emit c (.updateRows "notification_preferences" col)
    updatePrefCol c col fixBoolCell

/-- Boolean-columns section of `fix_notification_schema` lines 119-167:
query the three boolean columns' catalog rows, then fix each in turn.
The catalog query is not guarded per column, so its failure propagates. -/
def boolFixSection (f : Faults) (c : Conn) : Except Conn Conn :=
  let c := emit c (.boolColumnsQuery "notification_preferences")
  if f.boolColumnsQueryFails then .error c
  else
    let c := fixBoolCol f c "comment_notifications"
    let c := fixBoolCol f c "daily_digest"
    let c := fixBoolCol f c "trending_alerts"
    .ok c

/-- One iteration of the per-table loop of `fix_notification_schema`
lines 29-167: existence check (absent table is benign: continue), then
for tables other than `trending_cache` a `user_id` type check, destructive
recreate when the type is not acceptable (then `continue`), and for
`notification_preferences` the boolean-columns section.  The loop body has
no `try/except` of its own, so any failure propagates as `.error`. -/
def fixTableStep (f : Faults) (c : Conn) (t : String) : Except Conn Conn :=
  let c := emit c (.tableExistsQuery t)
  if f.tableExistsQueryFails t then .error c
  else if !tableExists c.cur t then .ok c
  else if t == "trending_cache" then .ok c
  else
    let c := emit c (.columnTypeQuery t)
    if f.columnTypeQueryFails t then .error c
    else
      match userIdTypeOf c.cur t with
      | Option.none =>
        if t == "notification_preferences" then boolFixSection f c else .ok c
      | some ty =>
        if acceptableType ty then
          if t == "notification_preferences" then boolFixSection f c else .ok c
        else
          recreateTable f c t

def fixLoop (f : Faults) : List String → Conn → Except Conn Conn
  | [], c => .ok c
  | t :: ts, c =>
    match fixTableStep f c t with
    | .error c => .error c
    | .ok c => fixLoop f ts c

/-- Probe of `fix_notification_schema` lines 179-205: insert into
`notification_preferences` with `ON CONFLICT DO NOTHING`, insert a
`test` row into `notification_history`, commit, then two COUNT
verification queries.  All probe failures are caught (line 203) and the
function still returns `True`; nothing is deleted. -/
def probeFix (f : Faults) (c : Conn) : Conn :=
  let c := emit c (.insertRow "notification_preferences")
  match c.cur.prefs with
  | Option.none => c
  | some pt =>
    if f.insertFails "notification_preferences" || !insertOK pt.userIdType testUserId then c
    else
      let c :=
        if pt.rows.any (fun r => r.user_id == testUserId) then c
        else setPrefs c (some { pt with
          rows := pt.rows ++ [⟨testUserId, .boolCell true, .boolCell true, .boolCell true⟩] })
      let c := emit c (.insertRow "notification_history")
      match c.cur.hist with
      | Option.none => c
      | some ht =>
        if f.insertFails "notification_history" || !insertOK ht.userIdType testUserId then c
        else
          let c := setHist c (some { ht with rows := ht.rows ++ [(testUserId, "test")] })
          let c := doCommit c
          let c := emit c (.countQuery "notification_preferences")
          emit c (.countQuery "notification_history")

/-- `fix_notification_schema` (lines 12-214): skip on non-PostgreSQL;
iterate the four tables with no per-table exception handling; commit once
after the loop; run the probe (failures absorbed); return `True`.  Any
exception inside the loop reaches the function-level handler and returns
`False`, the connection closing without a commit (rollback). -/
def fix_notification_schema (usePostgresql : Bool) (f : Faults) (db : DB) :
    Bool × Conn :=
  if !usePostgresql then (true, Conn.init db)
  else if f.connectionFails then (false, Conn.init db)
  else
    match fixLoop f tablesToCheckFix (Conn.init db) with
    | .error c => (false, c)
    | .ok c =>
      let c := doCommit c
      (true, probeFix f c)

/-- Observed conformance of one managed table: absent, or `user_id` already
64-bit. -/
def tableConformant (db : DB) (t : String) : Bool :=
  match userIdTypeOf db t with
  | Option.none => true
  | some ty => acceptableType ty

/-! ### Concrete states used by counterexamples and witnesses -/

/-- An unmigrated `notification_preferences`: 32-bit `user_id` with a
SERIAL default, legacy integer boolean values, one existing row. -/
def prefT32 : PrefTable :=
  ⟨"integer", some "nextval", true, some "1", some "1", some "1",
   [⟨42, .intCell 1, .intCell 0, .intCell 1⟩]⟩

/-- A conformant `notification_preferences` holding one row with a legacy
`'1'` in `comment_notifications`. -/
def prefT64 : PrefTable :=
  ⟨"bigint", Option.none, false, some "true", some "true", some "true",
   [⟨42, .intCell 1, .boolCell false, .intCell 0⟩]⟩

def histT32 : HistTable := ⟨"integer", [(7, "comment")]⟩

def histT64 : HistTable := ⟨"bigint", [(7, "comment")]⟩

def subsT64 : SubsTable := ⟨"bigint", [7]⟩

/-- All three tables present, `notification_preferences` unmigrated. -/
def dbRecreate : DB := ⟨some prefT32, some histT64, some subsT64, false⟩

/-- All three tables present and conformant. -/
def dbConformant : DB := ⟨some prefT64, some histT64, some subsT64, false⟩

/-- `notification_preferences` and `notification_history` absent, an
unmigrated `post_subscriptions` present. -/
def dbAbsentPrefs : DB := ⟨Option.none, Option.none, some ⟨"integer", [7]⟩, false⟩

/-- Both alterable tables unmigrated (for the partial-commit scenario). -/
def dbTwoStale : DB := ⟨some prefT32, some histT32, some subsT64, false⟩

/-- Fault oracle: the `information_schema.columns` query for
`notification_history` raises. -/
def histQueryFault : Faults :=
  { Faults.none with columnTypeQueryFails := fun t => t == "notification_history" }

/-- Fault oracle: the in-place ALTER of `notification_history.user_id`
raises. -/
def histAlterFault : Faults :=
  { Faults.none with alterUserIdFails := fun t => t == "notification_history" }

/-- Fault oracle: the in-place ALTER of `notification_preferences.user_id`
raises. -/
def prefsAlterFault : Faults :=
  { Faults.none with alterUserIdFails := fun t => t == "notification_preferences" }

/-- Fault oracle: the DROP/CREATE recreate of `notification_preferences`
raises. -/
def prefsRecreateFault : Faults :=
  { Faults.none with recreateFails := fun t => t == "notification_preferences" }

/-- Fault oracle: the boolean-column fix of `comment_notifications`
raises. -/
def commentColFault : Faults :=
  { Faults.none with boolColFixFails := fun col => col == "comment_notifications" }

/-- Fault oracle: `DROP SEQUENCE IF EXISTS` raises. -/
def dropSeqFault : Faults := { Faults.none with dropSequenceFails := true }

/-- A stale `notification_history` next to an unmigrated
`post_subscriptions`, `notification_preferences` absent. -/
def dbStaleSubs : DB := ⟨Option.none, some histT64, some ⟨"integer", [7]⟩, false⟩


/-- The connection as left behind by an `Except`-modelled computation:
on error, the statements already executed are still part of the trace. -/
def exConn : Except Conn Conn → Conn
  | .ok c => c
  | .error c => c

/-- The combined effect of the three per-column rewrites of
`fix_notification_schema` on one row. -/
def fixPrefRow (r : PrefRow) : PrefRow :=
  ⟨r.user_id, fixBoolCell r.comment_notifications, fixBoolCell r.daily_digest,
   fixBoolCell r.trending_alerts⟩

/-- Every DDL statement of the trace precedes the first COMMIT: no
data-definition statement is issued after the pass's single schema
commit. -/
def noDDLAfterFirstCommit (l : List Event) : Bool :=
  ((l.dropWhile (fun e => !(e == Event.commit))).drop 1).all (fun e => !e.isDDL)

/-- Whether a DDL statement targets the given managed table (the one
sequence the scripts drop backs `notification_preferences.user_id`). -/
def ddlForTable (t : String) : Event → Bool
  | .alterUserIdType u => u == t
  | .alterBoolDefaults u => u == t
  | .alterDropDefault u _ => u == t
  | .alterSetDefault u _ => u == t
  | .dropTable u => u == t
  | .createTable u => u == t
  | .dropSequence _ => t == "notification_preferences"
  | _ => false

/-! ### Helper facts -/

@[simp] theorem fitsInt32_testUserId : fitsInt32 testUserId = true := by decide

@[simp] theorem insertOK_testUserId (ty : String) : insertOK ty testUserId = true := by
  simp [insertOK, fitsInt32_testUserId]

/-! ### Claims -/

/-- Claim C1, counterexample: the claim says a table recreation preserves
all rows present before the operation.  On an unmigrated
`notification_preferences` holding row 42, `fix_notification_schema`
recreates the table with `DROP TABLE ... CASCADE` and the committed result
no longer contains row 42 — only the probe row survives. -/
theorem C1_counterexample :
    (dbRecreate.prefs.map fun t => t.rows.map (·.user_id)) = some [42] ∧
    ((fix_notification_schema true Faults.none dbRecreate).2.committed.prefs.map
      fun t => t.rows.map (·.user_id)) = some [testUserId] ∧
    (Event.dropTable "notification_preferences") ∈
      (fix_notification_schema true Faults.none dbRecreate).2.tr := by decide

/-- Claim C2, counterexample: the claim says a table whose observed
`user_id` type is already acceptable receives zero DDL statements.  On a
fully conformant database, `fix_notification_schema` still issues
DROP DEFAULT / SET DEFAULT ALTERs against `notification_preferences`. -/
theorem C2_counterexample :
    tableConformant dbConformant "notification_preferences" = true ∧
    (Event.alterDropDefault "notification_preferences" "comment_notifications") ∈
      (fix_notification_schema true Faults.none dbConformant).2.tr ∧
    ((fix_notification_schema true Faults.none dbConformant).2.tr.filter
      (fun e => e.isDDL)).length = 6 := by decide

/-- Claim C3, counterexample: the claim says a single table's detection
failure is caught and reconciliation continues with the remaining tables.
In `fix_notification_schema` the per-table loop has no handler: when the
type query for `notification_history` raises, the function aborts and
`post_subscriptions` — still unmigrated — is never even examined. -/
theorem C3_counterexample :
    (fix_notification_schema true histQueryFault dbStaleSubs).1 = false ∧
    tableConformant dbStaleSubs "post_subscriptions" = false ∧
    (Event.tableExistsQuery "post_subscriptions") ∉
      (fix_notification_schema true histQueryFault dbStaleSubs).2.tr := by decide

/-- Claim C4, counterexample: the claim says an absent table is benign and
never makes the result false.  With `notification_preferences` absent and
only `post_subscriptions` needing (and receiving, successfully) repair,
`auto_migrate_notification_tables` returns `False`: its validation probe
inserts into the absent table. -/
theorem C4_counterexample :
    (auto_migrate_notification_tables true Faults.none dbAbsentPrefs).1 = false ∧
    dbAbsentPrefs.prefs = Option.none ∧
    ((auto_migrate_notification_tables true Faults.none dbAbsentPrefs).2.committed.subs.map
      (·.userIdType)) = some "bigint" := by decide

/-- Claim C5, code bug: the probe is meant to use a value exceeding the
32-bit signed range (the defect class being repaired), but
`test_user_id = 1298849354` is below `2^31 - 1`, so the probe insert
succeeds even on an unmigrated 32-bit column and cannot detect the
defect; moreover `fix_notification_schema` never deletes its probe row. -/
theorem C5_code_bug_theorem :
    testUserId = 1298849354 ∧ ¬(2 ^ 31 - 1 < testUserId) ∧
    insertOK "integer" testUserId = true ∧
    (Event.insertRow "notification_preferences") ∈
      (fix_notification_schema true Faults.none dbConformant).2.tr ∧
    ((fix_notification_schema true Faults.none dbConformant).2.tr.filter
      (fun e => match e with | .deleteRows _ => true | _ => false)) = [] := by decide

/-- Claim C6, counterexample: the claim says a later table's failure
leaves the schema entirely pre-migration or entirely post-migration.
When the ALTER of `notification_history` raises (caught per block) while
`notification_preferences` migrates fine, the single commit publishes a
mixed state: `notification_preferences.user_id` is already `bigint`,
`notification_history.user_id` still `integer`. -/
theorem C6_counterexample :
    ((auto_migrate_notification_tables true histAlterFault dbTwoStale).2.committed.prefs.map
      (·.userIdType)) = some "bigint" ∧
    ((auto_migrate_notification_tables true histAlterFault dbTwoStale).2.committed.hist.map
      (·.userIdType)) = some "integer" ∧
    Event.commit ∈ (auto_migrate_notification_tables true histAlterFault dbTwoStale).2.tr := by decide

/-- Claim C8: on a non-relational backend (`use_postgresql` false) both
reconcilers return success immediately with an empty statement trace and
an unchanged database. -/
theorem C8_skip_non_postgresql (f : Faults) (db : DB) :
    auto_migrate_notification_tables false f db = (true, Conn.init db) ∧
    fix_notification_schema false f db = (true, Conn.init db) ∧
    (Conn.init db).tr = [] := by
  refine ⟨?_, ?_, rfl⟩ <;>
    simp [auto_migrate_notification_tables, fix_notification_schema]

/-! ### Trace and state lemmas for the phases of `auto_migrate_notification_tables` -/

theorem not_mem_of_all {l : List Event} {p : Event → Bool} {e : Event}
    (h : l.all p = true) (hp : p e = false) : e ∉ l := by
  intro hm
  have := List.all_eq_true.mp h e hm
  simp [hp] at this

theorem detectLoop_state (f : Faults) (ts : List String) (c : Conn) :
    (detectLoop f ts c).2.cur = c.cur ∧ (detectLoop f ts c).2.committed = c.committed := by
  induction ts generalizing c with
  | nil => simp [detectLoop]
  | cons t ts ih =>
    by_cases hf : f.columnTypeQueryFails t = true
    · simpa [detectLoop, hf, emit] using ih (emit c (.columnTypeQuery t))
    · rcases hty : userIdTypeOf c.cur t with _ | ty
      · simpa [detectLoop, hf, hty, emit] using ih (emit c (.columnTypeQuery t))
      · by_cases hacc : acceptableType ty = true
        · simpa [detectLoop, hf, hty, hacc, emit] using ih (emit c (.columnTypeQuery t))
        · simp [detectLoop, hf, hty, hacc, emit]

theorem detectLoop_tr (f : Faults) (ts : List String) (c : Conn) :
    ∃ l, (detectLoop f ts c).2.tr = c.tr ++ l ∧
      l.all (fun e => match e with | .columnTypeQuery _ => true | _ => false) = true := by
  induction ts generalizing c with
  | nil => exact ⟨[], by simp [detectLoop], rfl⟩
  | cons t ts ih =>
    by_cases hf : f.columnTypeQueryFails t = true
    · obtain ⟨l, hl, ha⟩ := ih (emit c (.columnTypeQuery t))
      refine ⟨Event.columnTypeQuery t :: l, ?_, by simpa using ha⟩
      simp only [detectLoop, hf, if_true]
      simp [emit] at hl
      simpa using hl
    · rcases hty : userIdTypeOf c.cur t with _ | ty
      · obtain ⟨l, hl, ha⟩ := ih (emit c (.columnTypeQuery t))
        refine ⟨Event.columnTypeQuery t :: l, ?_, by simpa using ha⟩
        simp only [detectLoop, hf, emit] at hl ⊢
        simp only [hty]
        simpa using hl
      · by_cases hacc : acceptableType ty = true
        · obtain ⟨l, hl, ha⟩ := ih (emit c (.columnTypeQuery t))
          refine ⟨Event.columnTypeQuery t :: l, ?_, by simpa using ha⟩
          simp only [detectLoop, hf, emit] at hl ⊢
          simp only [hty, hacc, if_true]
          simpa using hl
        · exact ⟨[Event.columnTypeQuery t], by simp [detectLoop, hf, hty, hacc, emit], rfl⟩

theorem detect_stale_prefs (f : Faults) (c : Conn) (pt : PrefTable)
    (hf : f.columnTypeQueryFails "notification_preferences" = false)
    (hp : c.cur.prefs = some pt) (hacc : acceptableType pt.userIdType = false) :
    detectLoop f tablesToCheck c =
      (true, emit c (.columnTypeQuery "notification_preferences")) := by
  simp [detectLoop, tablesToCheck, hf, hp, hacc, userIdTypeOf, emit]

theorem detect_false_conf (f : Faults) (ts : List String) (c : Conn)
    (hq : ∀ t ∈ ts, f.columnTypeQueryFails t = false)
    (h : (detectLoop f ts c).1 = false) :
    ∀ t ∈ ts, tableConformant c.cur t = true := by
  induction ts generalizing c with
  | nil => simp
  | cons t ts ih =>
    have hf := hq t (by simp)
    intro u hu
    rcases hty : userIdTypeOf c.cur t with _ | ty
    · rcases List.mem_cons.mp hu with rfl | hu'
      · simp [tableConformant, hty]
      · have := ih (emit c (.columnTypeQuery t)) (fun v hv => hq v (by simp [hv]))
          (by simpa [detectLoop, hf, hty, emit] using h) u hu'
        simpa [emit] using this
    · by_cases hacc : acceptableType ty = true
      · rcases List.mem_cons.mp hu with rfl | hu'
        · simp [tableConformant, hty, hacc]
        · have := ih (emit c (.columnTypeQuery t)) (fun v hv => hq v (by simp [hv]))
            (by simpa [detectLoop, hf, hty, hacc, emit] using h) u hu'
          simpa [emit] using this
      · simp [detectLoop, hf, hty, hacc, emit] at h

theorem detect_conf_false (f : Faults) (ts : List String) (c : Conn)
    (h : ∀ t ∈ ts, tableConformant c.cur t = true) :
    (detectLoop f ts c).1 = false := by
  induction ts generalizing c with
  | nil => simp [detectLoop]
  | cons t ts ih =>
    have ht := h t (by simp)
    have hrest : ∀ u ∈ ts, tableConformant (emit c (.columnTypeQuery t)).cur u = true := by
      intro u hu; simpa [emit] using h u (by simp [hu])
    by_cases hf : f.columnTypeQueryFails t = true
    · simpa [detectLoop, hf] using ih _ hrest
    · rcases hty : userIdTypeOf c.cur t with _ | ty
      · simpa [detectLoop, hf, hty, emit] using ih _ hrest
      · have hacc : acceptableType ty = true := by
          simpa [tableConformant, hty] using ht
        simpa [detectLoop, hf, hty, hacc, emit] using ih _ hrest

theorem migratePrefsAuto_mem (f : Faults) (c : Conn) (e : Event) (h : e ∈ c.tr) :
    e ∈ (migratePrefsAuto f c).tr := by
  rcases hp : c.cur.prefs with _ | pt
  · unfold migratePrefsAuto
    by_cases h1 : f.tableExistsQueryFails "notification_preferences" = true <;>
      simp_all [emit]
  · unfold migratePrefsAuto
    by_cases h1 : f.tableExistsQueryFails "notification_preferences" = true <;>
      by_cases h2 : f.columnTypeQueryFails "notification_preferences" = true <;>
      by_cases h3 : acceptableType pt.userIdType = true <;>
      by_cases h4 : f.alterUserIdFails "notification_preferences" = true <;>
      by_cases h5 : f.dropSequenceFails = true <;>
      by_cases h6 : f.alterBoolDefaultsFails = true <;>
      simp_all [emit, setPrefs]

theorem migratePrefsAuto_not_mem (f : Faults) (c : Conn) (e : Event) (h : e ∉ c.tr)
    (e1 : e ≠ .tableExistsQuery "notification_preferences")
    (e2 : e ≠ .columnTypeQuery "notification_preferences")
    (e3 : e ≠ .alterUserIdType "notification_preferences")
    (e4 : e ≠ .dropSequence "notification_preferences_user_id_seq")
    (e5 : e ≠ .alterBoolDefaults "notification_preferences") :
    e ∉ (migratePrefsAuto f c).tr := by
  rcases hp : c.cur.prefs with _ | pt
  · unfold migratePrefsAuto
    by_cases h1 : f.tableExistsQueryFails "notification_preferences" = true <;>
      simp_all [emit]
  · unfold migratePrefsAuto
    by_cases h1 : f.tableExistsQueryFails "notification_preferences" = true <;>
      by_cases h2 : f.columnTypeQueryFails "notification_preferences" = true <;>
      by_cases h3 : acceptableType pt.userIdType = true <;>
      by_cases h4 : f.alterUserIdFails "notification_preferences" = true <;>
      by_cases h5 : f.dropSequenceFails = true <;>
      by_cases h6 : f.alterBoolDefaultsFails = true <;>
      simp_all [emit, setPrefs]

theorem migratePrefsAuto_not_mem_conf (f : Faults) (c : Conn) (e : Event)
    (hc : tableConformant c.cur "notification_preferences" = true)
    (h : e ∉ c.tr)
    (e1 : e ≠ .tableExistsQuery "notification_preferences")
    (e2 : e ≠ .columnTypeQuery "notification_preferences") :
    e ∉ (migratePrefsAuto f c).tr := by
  rcases hp : c.cur.prefs with _ | pt
  · unfold migratePrefsAuto
    by_cases h1 : f.tableExistsQueryFails "notification_preferences" = true <;>
      simp_all [emit]
  · unfold migratePrefsAuto
    by_cases h1 : f.tableExistsQueryFails "notification_preferences" = true <;>
      by_cases h2 : f.columnTypeQueryFails "notification_preferences" = true <;>
      by_cases h3 : acceptableType pt.userIdType = true <;>
      simp_all [emit, setPrefs, tableConformant, userIdTypeOf]

theorem migratePrefsAuto_frame (f : Faults) (c : Conn) :
    (migratePrefsAuto f c).cur.hist = c.cur.hist ∧
    (migratePrefsAuto f c).cur.subs = c.cur.subs ∧
    (migratePrefsAuto f c).cur.trendingExists = c.cur.trendingExists ∧
    (migratePrefsAuto f c).committed = c.committed := by
  rcases hp : c.cur.prefs with _ | pt
  · unfold migratePrefsAuto
    by_cases h1 : f.tableExistsQueryFails "notification_preferences" = true <;>
      simp_all [emit]
  · unfold migratePrefsAuto
    by_cases h1 : f.tableExistsQueryFails "notification_preferences" = true <;>
      by_cases h2 : f.columnTypeQueryFails "notification_preferences" = true <;>
      by_cases h3 : acceptableType pt.userIdType = true <;>
      by_cases h4 : f.alterUserIdFails "notification_preferences" = true <;>
      by_cases h5 : f.dropSequenceFails = true <;>
      by_cases h6 : f.alterBoolDefaultsFails = true <;>
      simp_all [emit, setPrefs]

theorem migratePrefsAuto_rows (f : Faults) (c : Conn) :
    ((migratePrefsAuto f c).cur.prefs).map (·.rows) = (c.cur.prefs).map (·.rows) := by
  rcases hp : c.cur.prefs with _ | pt
  · unfold migratePrefsAuto
    by_cases h1 : f.tableExistsQueryFails "notification_preferences" = true <;>
      simp_all [emit]
  · unfold migratePrefsAuto
    by_cases h1 : f.tableExistsQueryFails "notification_preferences" = true <;>
      by_cases h2 : f.columnTypeQueryFails "notification_preferences" = true <;>
      by_cases h3 : acceptableType pt.userIdType = true <;>
      by_cases h4 : f.alterUserIdFails "notification_preferences" = true <;>
      by_cases h5 : f.dropSequenceFails = true <;>
      by_cases h6 : f.alterBoolDefaultsFails = true <;>
      simp_all [emit, setPrefs]

theorem migratePrefsAuto_conf (c : Conn) (pt' : PrefTable)
    (h : (migratePrefsAuto Faults.none c).cur.prefs = some pt') :
    acceptableType pt'.userIdType = true := by
  rcases hp : c.cur.prefs with _ | pt
  · unfold migratePrefsAuto at h
    simp_all [emit, Faults.none]
  · unfold migratePrefsAuto at h
    by_cases h3 : acceptableType pt.userIdType = true <;>
      simp_all [emit, setPrefs, Faults.none] <;> subst h <;> simp_all [acceptableType, lowerString]

theorem migrateHistAuto_mem (f : Faults) (c : Conn) (e : Event) (h : e ∈ c.tr) :
    e ∈ (migrateHistAuto f c).tr := by
  rcases hp : c.cur.hist with _ | ht
  · unfold migrateHistAuto
    by_cases h1 : f.tableExistsQueryFails "notification_history" = true <;>
      simp_all [emit]
  · unfold migrateHistAuto
    by_cases h1 : f.tableExistsQueryFails "notification_history" = true <;>
      by_cases h2 : f.columnTypeQueryFails "notification_history" = true <;>
      by_cases h3 : acceptableType ht.userIdType = true <;>
      by_cases h4 : f.alterUserIdFails "notification_history" = true <;>
      simp_all [emit, setHist]

theorem migrateHistAuto_not_mem (f : Faults) (c : Conn) (e : Event) (h : e ∉ c.tr)
    (e1 : e ≠ .tableExistsQuery "notification_history")
    (e2 : e ≠ .columnTypeQuery "notification_history")
    (e3 : e ≠ .alterUserIdType "notification_history") :
    e ∉ (migrateHistAuto f c).tr := by
  rcases hp : c.cur.hist with _ | ht
  · unfold migrateHistAuto
    by_cases h1 : f.tableExistsQueryFails "notification_history" = true <;>
      simp_all [emit]
  · unfold migrateHistAuto
    by_cases h1 : f.tableExistsQueryFails "notification_history" = true <;>
      by_cases h2 : f.columnTypeQueryFails "notification_history" = true <;>
      by_cases h3 : acceptableType ht.userIdType = true <;>
      by_cases h4 : f.alterUserIdFails "notification_history" = true <;>
      simp_all [emit, setHist]

theorem migrateHistAuto_not_mem_conf (f : Faults) (c : Conn) (e : Event)
    (hc : tableConformant c.cur "notification_history" = true)
    (h : e ∉ c.tr)
    (e1 : e ≠ .tableExistsQuery "notification_history")
    (e2 : e ≠ .columnTypeQuery "notification_history") :
    e ∉ (migrateHistAuto f c).tr := by
  rcases hp : c.cur.hist with _ | ht
  · unfold migrateHistAuto
    by_cases h1 : f.tableExistsQueryFails "notification_history" = true <;>
      simp_all [emit]
  · unfold migrateHistAuto
    by_cases h1 : f.tableExistsQueryFails "notification_history" = true <;>
      by_cases h2 : f.columnTypeQueryFails "notification_history" = true <;>
      by_cases h3 : acceptableType ht.userIdType = true <;>
      simp_all [emit, setHist, tableConformant, userIdTypeOf]

theorem migrateHistAuto_frame (f : Faults) (c : Conn) :
    (migrateHistAuto f c).cur.prefs = c.cur.prefs ∧
    (migrateHistAuto f c).cur.subs = c.cur.subs ∧
    (migrateHistAuto f c).cur.trendingExists = c.cur.trendingExists ∧
    (migrateHistAuto f c).committed = c.committed := by
  rcases hp : c.cur.hist with _ | ht
  · unfold migrateHistAuto
    by_cases h1 : f.tableExistsQueryFails "notification_history" = true <;>
      simp_all [emit]
  · unfold migrateHistAuto
    by_cases h1 : f.tableExistsQueryFails "notification_history" = true <;>
      by_cases h2 : f.columnTypeQueryFails "notification_history" = true <;>
      by_cases h3 : acceptableType ht.userIdType = true <;>
      by_cases h4 : f.alterUserIdFails "notification_history" = true <;>
      simp_all [emit, setHist]

theorem migrateHistAuto_rows (f : Faults) (c : Conn) :
    ((migrateHistAuto f c).cur.hist).map (·.rows) = (c.cur.hist).map (·.rows) := by
  rcases hp : c.cur.hist with _ | ht
  · unfold migrateHistAuto
    by_cases h1 : f.tableExistsQueryFails "notification_history" = true <;>
      simp_all [emit]
  · unfold migrateHistAuto
    by_cases h1 : f.tableExistsQueryFails "notification_history" = true <;>
      by_cases h2 : f.columnTypeQueryFails "notification_history" = true <;>
      by_cases h3 : acceptableType ht.userIdType = true <;>
      by_cases h4 : f.alterUserIdFails "notification_history" = true <;>
      simp_all [emit, setHist]

theorem migrateHistAuto_conf (c : Conn) (ht' : HistTable)
    (h : (migrateHistAuto Faults.none c).cur.hist = some ht') :
    acceptableType ht'.userIdType = true := by
  rcases hp : c.cur.hist with _ | ht
  · unfold migrateHistAuto at h
    simp_all [emit, Faults.none]
  · unfold migrateHistAuto at h
    by_cases h3 : acceptableType ht.userIdType = true <;>
      simp_all [emit, setHist, Faults.none] <;> subst h <;>
      simp_all [acceptableType, lowerString]

theorem migrateSubsAuto_mem (f : Faults) (c : Conn) (e : Event) (h : e ∈ c.tr) :
    e ∈ (migrateSubsAuto f c).tr := by
  rcases hp : c.cur.subs with _ | st
  · unfold migrateSubsAuto
    by_cases h1 : f.tableExistsQueryFails "post_subscriptions" = true <;>
      simp_all [emit]
  · unfold migrateSubsAuto
    by_cases h1 : f.tableExistsQueryFails "post_subscriptions" = true <;>
      by_cases h2 : f.columnTypeQueryFails "post_subscriptions" = true <;>
      by_cases h3 : acceptableType st.userIdType = true <;>
      by_cases h4 : f.alterUserIdFails "post_subscriptions" = true <;>
      simp_all [emit, setSubs]

theorem migrateSubsAuto_not_mem (f : Faults) (c : Conn) (e : Event) (h : e ∉ c.tr)
    (e1 : e ≠ .tableExistsQuery "post_subscriptions")
    (e2 : e ≠ .columnTypeQuery "post_subscriptions")
    (e3 : e ≠ .alterUserIdType "post_subscriptions") :
    e ∉ (migrateSubsAuto f c).tr := by
  rcases hp : c.cur.subs with _ | st
  · unfold migrateSubsAuto
    by_cases h1 : f.tableExistsQueryFails "post_subscriptions" = true <;>
      simp_all [emit]
  · unfold migrateSubsAuto
    by_cases h1 : f.tableExistsQueryFails "post_subscriptions" = true <;>
      by_cases h2 : f.columnTypeQueryFails "post_subscriptions" = true <;>
      by_cases h3 : acceptableType st.userIdType = true <;>
      by_cases h4 : f.alterUserIdFails "post_subscriptions" = true <;>
      simp_all [emit, setSubs]

theorem migrateSubsAuto_not_mem_conf (f : Faults) (c : Conn) (e : Event)
    (hc : tableConformant c.cur "post_subscriptions" = true)
    (h : e ∉ c.tr)
    (e1 : e ≠ .tableExistsQuery "post_subscriptions")
    (e2 : e ≠ .columnTypeQuery "post_subscriptions") :
    e ∉ (migrateSubsAuto f c).tr := by
  rcases hp : c.cur.subs with _ | st
  · unfold migrateSubsAuto
    by_cases h1 : f.tableExistsQueryFails "post_subscriptions" = true <;>
      simp_all [emit]
  · unfold migrateSubsAuto
    by_cases h1 : f.tableExistsQueryFails "post_subscriptions" = true <;>
      by_cases h2 : f.columnTypeQueryFails "post_subscriptions" = true <;>
      by_cases h3 : acceptableType st.userIdType = true <;>
      simp_all [emit, setSubs, tableConformant, userIdTypeOf]

theorem migrateSubsAuto_frame (f : Faults) (c : Conn) :
    (migrateSubsAuto f c).cur.prefs = c.cur.prefs ∧
    (migrateSubsAuto f c).cur.hist = c.cur.hist ∧
    (migrateSubsAuto f c).cur.trendingExists = c.cur.trendingExists ∧
    (migrateSubsAuto f c).committed = c.committed := by
  rcases hp : c.cur.subs with _ | st
  · unfold migrateSubsAuto
    by_cases h1 : f.tableExistsQueryFails "post_subscriptions" = true <;>
      simp_all [emit]
  · unfold migrateSubsAuto
    by_cases h1 : f.tableExistsQueryFails "post_subscriptions" = true <;>
      by_cases h2 : f.columnTypeQueryFails "post_subscriptions" = true <;>
      by_cases h3 : acceptableType st.userIdType = true <;>
      by_cases h4 : f.alterUserIdFails "post_subscriptions" = true <;>
      simp_all [emit, setSubs]

theorem migrateSubsAuto_rows (f : Faults) (c : Conn) :
    ((migrateSubsAuto f c).cur.subs).map (·.rows) = (c.cur.subs).map (·.rows) := by
  rcases hp : c.cur.subs with _ | st
  · unfold migrateSubsAuto
    by_cases h1 : f.tableExistsQueryFails "post_subscriptions" = true <;>
      simp_all [emit]
  · unfold migrateSubsAuto
    by_cases h1 : f.tableExistsQueryFails "post_subscriptions" = true <;>
      by_cases h2 : f.columnTypeQueryFails "post_subscriptions" = true <;>
      by_cases h3 : acceptableType st.userIdType = true <;>
      by_cases h4 : f.alterUserIdFails "post_subscriptions" = true <;>
      simp_all [emit, setSubs]

theorem migrateSubsAuto_conf (c : Conn) (st' : SubsTable)
    (h : (migrateSubsAuto Faults.none c).cur.subs = some st') :
    acceptableType st'.userIdType = true := by
  rcases hp : c.cur.subs with _ | st
  · unfold migrateSubsAuto at h
    simp_all [emit, Faults.none]
  · unfold migrateSubsAuto at h
    by_cases h3 : acceptableType st.userIdType = true <;>
      simp_all [emit, setSubs, Faults.none] <;> subst h <;>
      simp_all [acceptableType, lowerString]

theorem probeAuto_mem (f : Faults) (c : Conn) (e : Event) (h : e ∈ c.tr) :
    e ∈ (probeAuto f c).2.tr := by
  rcases hp : c.cur.prefs with _ | pt
  · unfold probeAuto
    simp_all [emit]
  · unfold probeAuto
    by_cases h2 : f.insertFails "notification_preferences" = true <;>
      by_cases ha : pt.rows.any (fun r => r.user_id == testUserId) = true <;>
      rcases hh : c.cur.hist with _ | ht <;>
      by_cases h4 : f.insertFails "notification_history" = true <;>
      by_cases h5 : f.deleteFails = true <;>
      simp_all [emit, setPrefs, setHist, doCommit]

theorem probeAuto_not_mem (f : Faults) (c : Conn) (e : Event) (h : e ∉ c.tr)
    (e1 : e ≠ .insertRow "notification_preferences")
    (e2 : e ≠ .insertRow "notification_history")
    (e3 : e ≠ .deleteRows "notification_history")
    (e4 : e ≠ .commit) :
    e ∉ (probeAuto f c).2.tr := by
  rcases hp : c.cur.prefs with _ | pt
  · unfold probeAuto
    simp_all [emit]
  · unfold probeAuto
    by_cases h2 : f.insertFails "notification_preferences" = true <;>
      by_cases ha : pt.rows.any (fun r => r.user_id == testUserId) = true <;>
      rcases hh : c.cur.hist with _ | ht <;>
      by_cases h4 : f.insertFails "notification_history" = true <;>
      by_cases h5 : f.deleteFails = true <;>
      simp_all [emit, setPrefs, setHist, doCommit]

theorem probeAuto_committed_conf (f : Faults) (c : Conn)
    (h1 : tableConformant c.cur "notification_preferences" = true)
    (h2 : tableConformant c.cur "notification_history" = true)
    (h3 : tableConformant c.cur "post_subscriptions" = true)
    (g1 : tableConformant c.committed "notification_preferences" = true)
    (g2 : tableConformant c.committed "notification_history" = true)
    (g3 : tableConformant c.committed "post_subscriptions" = true) :
    tableConformant (probeAuto f c).2.committed "notification_preferences" = true ∧
    tableConformant (probeAuto f c).2.committed "notification_history" = true ∧
    tableConformant (probeAuto f c).2.committed "post_subscriptions" = true := by
  rcases hp : c.cur.prefs with _ | pt
  · unfold probeAuto
    simp_all [emit]
  · unfold probeAuto
    by_cases hf2 : f.insertFails "notification_preferences" = true <;>
      by_cases ha : pt.rows.any (fun r => r.user_id == testUserId) = true <;>
      rcases hh : c.cur.hist with _ | ht <;>
      by_cases hf4 : f.insertFails "notification_history" = true <;>
      by_cases hf5 : f.deleteFails = true <;>
      simp_all [emit, setPrefs, setHist, doCommit, tableConformant, userIdTypeOf]

theorem doCommit_mem (c : Conn) (e : Event) (h : e ∈ c.tr) : e ∈ (doCommit c).tr := by
  simp [doCommit, h]

theorem doCommit_not_mem (c : Conn) (e : Event) (h : e ∉ c.tr) (e1 : e ≠ .commit) :
    e ∉ (doCommit c).tr := by
  simp [doCommit, h, e1]

/-- Claim C10: in `auto_migrate_notification_tables` each table's ALTER is
guarded by a fresh re-check of that table's own observed `user_id` type,
so an ALTER is never issued against a column that is already
`bigint`/`int8` — whatever triggered the pass and whatever other
statements fail. -/
theorem C10_recheck_guard (db : DB) (f : Faults) :
    (∀ pt, db.prefs = some pt → acceptableType pt.userIdType = true →
       Event.alterUserIdType "notification_preferences" ∉
         (auto_migrate_notification_tables true f db).2.tr) ∧
    (∀ ht, db.hist = some ht → acceptableType ht.userIdType = true →
       Event.alterUserIdType "notification_history" ∉
         (auto_migrate_notification_tables true f db).2.tr) ∧
    (∀ st, db.subs = some st → acceptableType st.userIdType = true →
       Event.alterUserIdType "post_subscriptions" ∉
         (auto_migrate_notification_tables true f db).2.tr) := by
  by_cases hcf : f.connectionFails = true
  · unfold auto_migrate_notification_tables
    simp [hcf, Conn.init]
  · obtain ⟨l, hl, hall⟩ := detectLoop_tr f tablesToCheck (Conn.init db)
    obtain ⟨hcur, hcom⟩ := detectLoop_state f tablesToCheck (Conn.init db)
    rcases hdet : detectLoop f tablesToCheck (Conn.init db) with ⟨needed, c⟩
    rw [hdet] at hl hcur hcom
    simp only [Conn.init] at hl hcur hcom
    have hnotdet : ∀ t : String, Event.alterUserIdType t ∉ c.tr := by
      intro t
      rw [hl]
      simpa using not_mem_of_all hall (by rfl)
    have hrun : (auto_migrate_notification_tables true f db).2 =
        if !needed then c
        else (probeAuto f (doCommit (migrateSubsAuto f (migrateHistAuto f
          (migratePrefsAuto f c))))).2 := by
      unfold auto_migrate_notification_tables
      simp only [hcf, hdet, Bool.not_true, Bool.false_eq_true, if_false]
      rcases needed with _ | _ <;> simp
    rcases needed with _ | _
    · rw [hrun]
      simp only [Bool.not_false, if_true]
      exact ⟨fun _ _ _ => hnotdet _, fun _ _ _ => hnotdet _, fun _ _ _ => hnotdet _⟩
    · rw [hrun]
      simp only [Bool.not_true, Bool.false_eq_true, if_false]
      refine ⟨?_, ?_, ?_⟩
      · intro pt hp hacc
        have hc1 : tableConformant c.cur "notification_preferences" = true := by
          simp [tableConformant, userIdTypeOf, hcur, hp, hacc]
        refine probeAuto_not_mem _ _ _ ?_ (by decide) (by decide) (by decide) (by decide)
        refine doCommit_not_mem _ _ ?_ (by decide)
        refine migrateSubsAuto_not_mem _ _ _ ?_ (by decide) (by decide) (by decide)
        refine migrateHistAuto_not_mem _ _ _ ?_ (by decide) (by decide) (by decide)
        exact migratePrefsAuto_not_mem_conf f c _ hc1 (hnotdet _) (by decide) (by decide)
      · intro ht hp hacc
        have hfr := migratePrefsAuto_frame f c
        have hc1 : tableConformant (migratePrefsAuto f c).cur "notification_history" = true := by
          simp [tableConformant, userIdTypeOf, hfr.1, hcur, hp, hacc]
        refine probeAuto_not_mem _ _ _ ?_ (by decide) (by decide) (by decide) (by decide)
        refine doCommit_not_mem _ _ ?_ (by decide)
        refine migrateSubsAuto_not_mem _ _ _ ?_ (by decide) (by decide) (by decide)
        refine migrateHistAuto_not_mem_conf _ _ _ hc1 ?_ (by decide) (by decide)
        exact migratePrefsAuto_not_mem f c _ (hnotdet _) (by decide) (by decide) (by decide)
          (by decide) (by decide)
      · intro st hp hacc
        have hfr1 := migratePrefsAuto_frame f c
        have hfr2 := migrateHistAuto_frame f (migratePrefsAuto f c)
        have hc1 : tableConformant (migrateHistAuto f (migratePrefsAuto f c)).cur
            "post_subscriptions" = true := by
          simp [tableConformant, userIdTypeOf, hfr2.2.1, hfr1.2.1, hcur, hp, hacc]
        refine probeAuto_not_mem _ _ _ ?_ (by decide) (by decide) (by decide) (by decide)
        refine doCommit_not_mem _ _ ?_ (by decide)
        refine migrateSubsAuto_not_mem_conf _ _ _ hc1 ?_ (by decide) (by decide)
        refine migrateHistAuto_not_mem _ _ _ ?_ (by decide) (by decide) (by decide)
        exact migratePrefsAuto_not_mem f c _ (hnotdet _) (by decide) (by decide) (by decide)
          (by decide) (by decide)

theorem probeAuto_types (f : Faults) (c : Conn) :
    ((probeAuto f c).2.cur.prefs).map (·.userIdType) = (c.cur.prefs).map (·.userIdType) ∧
    ((probeAuto f c).2.cur.hist).map (·.userIdType) = (c.cur.hist).map (·.userIdType) ∧
    (probeAuto f c).2.cur.subs = c.cur.subs := by
  rcases hp : c.cur.prefs with _ | pt
  · unfold probeAuto
    simp_all [emit]
  · unfold probeAuto
    by_cases h2 : f.insertFails "notification_preferences" = true <;>
      by_cases ha : pt.rows.any (fun r => r.user_id == testUserId) = true <;>
      rcases hh : c.cur.hist with _ | ht <;>
      by_cases h4 : f.insertFails "notification_history" = true <;>
      by_cases h5 : f.deleteFails = true <;>
      simp_all [emit, setPrefs, setHist, doCommit]

theorem migratePrefsAuto_stale (f : Faults) (c : Conn) (pt : PrefTable)
    (hp : c.cur.prefs = some pt) (hacc : acceptableType pt.userIdType = false)
    (h3 : f.tableExistsQueryFails "notification_preferences" = false)
    (h2 : f.columnTypeQueryFails "notification_preferences" = false)
    (h4 : f.alterUserIdFails "notification_preferences" = false)
    (h5 : f.alterBoolDefaultsFails = false) :
    Event.alterBoolDefaults "notification_preferences" ∈ (migratePrefsAuto f c).tr ∧
    ((migratePrefsAuto f c).cur.prefs).map (·.userIdType) = some "bigint" := by
  unfold migratePrefsAuto
  by_cases h6 : f.dropSequenceFails = true <;> simp_all [emit, setPrefs]

/-- Claim C9: the `DROP SEQUENCE IF EXISTS` statement succeeds whether or
not the backing sequence exists, and an engine failure of the drop is
absorbed by the inner `try/except: pass`: the boolean-default ALTER of
the same block is still issued and the table's `user_id` repair stands —
for every fault oracle, in particular one where the sequence drop
raises. -/
theorem C9_sequence_drop (db : DB) (f : Faults) (pt : PrefTable)
    (hp : db.prefs = some pt) (hacc : acceptableType pt.userIdType = false)
    (h1 : f.connectionFails = false)
    (h2 : f.columnTypeQueryFails "notification_preferences" = false)
    (h3 : f.tableExistsQueryFails "notification_preferences" = false)
    (h4 : f.alterUserIdFails "notification_preferences" = false)
    (h5 : f.alterBoolDefaultsFails = false) :
    Event.dropSequence "notification_preferences_user_id_seq" ∈
      (auto_migrate_notification_tables true f db).2.tr ∧
    Event.alterBoolDefaults "notification_preferences" ∈
      (auto_migrate_notification_tables true f db).2.tr ∧
    ((auto_migrate_notification_tables true f db).2.cur.prefs).map (·.userIdType) =
      some "bigint" := by
  obtain ⟨hcur, _⟩ := detectLoop_state f tablesToCheck (Conn.init db)
  have hdet := detect_stale_prefs f (Conn.init db) pt h2 (by simpa [Conn.init] using hp) hacc
  have hp1 : (emit (Conn.init db) (.columnTypeQuery "notification_preferences")).cur.prefs
      = some pt := by simpa [emit, Conn.init] using hp
  have hblock := migratePrefsAuto_stale f _ pt hp1 hacc h3 h2 h4 h5
  have hdrop : Event.dropSequence "notification_preferences_user_id_seq" ∈
      (migratePrefsAuto f (emit (Conn.init db) (.columnTypeQuery "notification_preferences"))).tr := by
    unfold migratePrefsAuto
    by_cases h6 : f.dropSequenceFails = true <;>
      simp_all [emit, setPrefs, Conn.init]
  have hrun : (auto_migrate_notification_tables true f db).2 =
      (probeAuto f (doCommit (migrateSubsAuto f (migrateHistAuto f (migratePrefsAuto f
        (emit (Conn.init db) (.columnTypeQuery "notification_preferences"))))))).2 := by
    unfold auto_migrate_notification_tables
    simp [h1, hdet]
  rw [hrun]
  have hfrH := migrateHistAuto_frame f (migratePrefsAuto f
    (emit (Conn.init db) (.columnTypeQuery "notification_preferences")))
  have hfrS := migrateSubsAuto_frame f (migrateHistAuto f (migratePrefsAuto f
    (emit (Conn.init db) (.columnTypeQuery "notification_preferences"))))
  have htypes := probeAuto_types f (doCommit (migrateSubsAuto f (migrateHistAuto f
    (migratePrefsAuto f (emit (Conn.init db) (.columnTypeQuery "notification_preferences"))))))
  refine ⟨?_, ?_, ?_⟩
  · exact probeAuto_mem _ _ _ (doCommit_mem _ _ (migrateSubsAuto_mem _ _ _
      (migrateHistAuto_mem _ _ _ hdrop)))
  · exact probeAuto_mem _ _ _ (doCommit_mem _ _ (migrateSubsAuto_mem _ _ _
      (migrateHistAuto_mem _ _ _ hblock.1)))
  · rw [htypes.1]
    simp only [doCommit]
    rw [hfrS.1, hfrH.1]
    exact hblock.2

/-- Claim C9 witness: concrete run on an unmigrated table with a raising
sequence drop. -/
theorem C9_witness :
    Event.dropSequence "notification_preferences_user_id_seq" ∈
      (auto_migrate_notification_tables true dropSeqFault dbRecreate).2.tr ∧
    Event.alterBoolDefaults "notification_preferences" ∈
      (auto_migrate_notification_tables true dropSeqFault dbRecreate).2.tr ∧
    ((auto_migrate_notification_tables true dropSeqFault dbRecreate).2.cur.prefs).map
      (·.userIdType) = some "bigint" :=
  C9_sequence_drop dbRecreate dropSeqFault prefT32 rfl (by decide) rfl rfl rfl rfl rfl

/-- Claim C10 witness: on a fully conformant database no ALTER is issued
against `notification_preferences`. -/
theorem C10_witness :
    Event.alterUserIdType "notification_preferences" ∉
      (auto_migrate_notification_tables true Faults.none dbConformant).2.tr :=
  (C10_recheck_guard dbConformant Faults.none).1 prefT64 rfl (by decide)

/-! ### Trace and state lemmas for the phases of `fix_notification_schema` -/

theorem setColDefault_tr (c : Conn) (col : String) (d : Option String) :
    (setColDefault c col d).tr = c.tr := by
  unfold setColDefault
  rcases c.cur.prefs with _ | pt
  · rfl
  · by_cases h1 : (col == "comment_notifications") = true <;>
      by_cases h2 : (col == "daily_digest") = true <;>
      by_cases h3 : (col == "trending_alerts") = true <;>
      simp_all [setPrefs]

theorem updatePrefCol_tr (c : Conn) (col : String) (g : Cell → Cell) :
    (updatePrefCol c col g).tr = c.tr := by
  unfold updatePrefCol
  rcases c.cur.prefs with _ | pt
  · rfl
  · simp [setPrefs]

theorem fixBoolCol_mem (f : Faults) (c : Conn) (col : String) (e : Event) (h : e ∈ c.tr) :
    e ∈ (fixBoolCol f c col).tr := by
  unfold fixBoolCol
  by_cases h1 : f.boolColFixFails col = true <;>
    simp_all [emit, setColDefault_tr, updatePrefCol_tr]

theorem boolFixSection_mem (f : Faults) (c : Conn) (e : Event) (h : e ∈ c.tr) :
    e ∈ (exConn (boolFixSection f c)).tr := by
  unfold boolFixSection
  by_cases h1 : f.boolColumnsQueryFails = true
  · simp_all [emit, exConn]
  · simp only [h1, Bool.false_eq_true, if_false]
    exact fixBoolCol_mem f _ _ e (fixBoolCol_mem f _ _ e (fixBoolCol_mem f _ _ e
      (by simp [emit, h])))

theorem recreateTable_mem (f : Faults) (c : Conn) (t : String) (e : Event) (h : e ∈ c.tr) :
    e ∈ (exConn (recreateTable f c t)).tr := by
  unfold recreateTable
  by_cases h1 : f.recreateFails t = true <;>
    by_cases h2 : (t == "notification_preferences") = true <;>
    by_cases h3 : (t == "notification_history") = true <;>
    by_cases h4 : (t == "post_subscriptions") = true <;>
    simp_all [emit, exConn, setPrefs, setHist, setSubs]

theorem fixStep_prefs_mem (f : Faults) (c : Conn) (e : Event) (h : e ∈ c.tr) :
    e ∈ (exConn (fixTableStep f c "notification_preferences")).tr := by
  unfold fixTableStep
  by_cases h1 : f.tableExistsQueryFails "notification_preferences" = true
  · simp_all [emit, exConn]
  · rcases hp : c.cur.prefs with _ | pt
    · simp_all [emit, exConn, tableExists, Option.isSome]
    · by_cases h2 : f.columnTypeQueryFails "notification_preferences" = true
      · simp_all [emit, exConn, tableExists, Option.isSome]
      · by_cases hacc : acceptableType pt.userIdType = true
        · have := boolFixSection_mem f
            (emit (emit c (.tableExistsQuery "notification_preferences"))
              (.columnTypeQuery "notification_preferences")) e (by simp [emit, h])
          simp_all [emit, exConn, tableExists, Option.isSome, userIdTypeOf]
        · have := recreateTable_mem f
            (emit (emit c (.tableExistsQuery "notification_preferences"))
              (.columnTypeQuery "notification_preferences")) "notification_preferences" e
            (by simp [emit, h])
          simp_all [emit, exConn, tableExists, Option.isSome, userIdTypeOf]

theorem fixStep_hist_mem (f : Faults) (c : Conn) (e : Event) (h : e ∈ c.tr) :
    e ∈ (exConn (fixTableStep f c "notification_history")).tr := by
  unfold fixTableStep
  by_cases h1 : f.tableExistsQueryFails "notification_history" = true
  · simp_all [emit, exConn]
  · rcases hp : c.cur.hist with _ | ht
    · simp_all [emit, exConn, tableExists, Option.isSome]
    · by_cases h2 : f.columnTypeQueryFails "notification_history" = true
      · simp_all [emit, exConn, tableExists, Option.isSome]
      · by_cases hacc : acceptableType ht.userIdType = true
        · simp_all [emit, exConn, tableExists, Option.isSome, userIdTypeOf]
        · have := recreateTable_mem f
            (emit (emit c (.tableExistsQuery "notification_history"))
              (.columnTypeQuery "notification_history")) "notification_history" e
            (by simp [emit, h])
          simp_all [emit, exConn, tableExists, Option.isSome, userIdTypeOf]

theorem fixStep_subs_mem (f : Faults) (c : Conn) (e : Event) (h : e ∈ c.tr) :
    e ∈ (exConn (fixTableStep f c "post_subscriptions")).tr := by
  unfold fixTableStep
  by_cases h1 : f.tableExistsQueryFails "post_subscriptions" = true
  · simp_all [emit, exConn]
  · rcases hp : c.cur.subs with _ | st
    · simp_all [emit, exConn, tableExists, Option.isSome]
    · by_cases h2 : f.columnTypeQueryFails "post_subscriptions" = true
      · simp_all [emit, exConn, tableExists, Option.isSome]
      · by_cases hacc : acceptableType st.userIdType = true
        · simp_all [emit, exConn, tableExists, Option.isSome, userIdTypeOf]
        · have := recreateTable_mem f
            (emit (emit c (.tableExistsQuery "post_subscriptions"))
              (.columnTypeQuery "post_subscriptions")) "post_subscriptions" e
            (by simp [emit, h])
          simp_all [emit, exConn, tableExists, Option.isSome, userIdTypeOf]

theorem fixStep_trending_mem (f : Faults) (c : Conn) (e : Event) (h : e ∈ c.tr) :
    e ∈ (exConn (fixTableStep f c "trending_cache")).tr := by
  unfold fixTableStep
  by_cases h1 : f.tableExistsQueryFails "trending_cache" = true <;>
    by_cases h2 : tableExists c.cur "trending_cache" = true <;>
    simp_all [emit, exConn]

theorem probeFix_mem (f : Faults) (c : Conn) (e : Event) (h : e ∈ c.tr) :
    e ∈ (probeFix f c).tr := by
  rcases hp : c.cur.prefs with _ | pt
  · unfold probeFix
    simp_all [emit]
  · unfold probeFix
    by_cases h2 : f.insertFails "notification_preferences" = true
    · simp_all [emit]
    · by_cases ha : ∃ x ∈ pt.rows, x.user_id = testUserId
      · rcases hh : c.cur.hist with _ | ht <;>
          by_cases h4 : f.insertFails "notification_history" = true <;>
          simp_all [emit, setPrefs, setHist, doCommit, if_pos ha]
      · rcases hh : c.cur.hist with _ | ht <;>
          by_cases h4 : f.insertFails "notification_history" = true <;>
          simp_all [emit, setPrefs, setHist, doCommit, if_neg ha]

theorem fixLoop_rest_mem (f : Faults) (c : Conn) (e : Event) (h : e ∈ c.tr) :
    e ∈ (exConn (fixLoop f ["notification_history", "post_subscriptions",
      "trending_cache"] c)).tr := by
  unfold fixLoop
  rcases h1 : fixTableStep f c "notification_history" with c1 | c1
  · simpa [exConn] using (by simpa [exConn, h1] using fixStep_hist_mem f c e h : e ∈ c1.tr)
  · have he1 : e ∈ c1.tr := by simpa [exConn, h1] using fixStep_hist_mem f c e h
    unfold fixLoop
    rcases h2 : fixTableStep f c1 "post_subscriptions" with c2 | c2
    · simpa [exConn] using (by simpa [exConn, h2] using fixStep_subs_mem f c1 e he1 : e ∈ c2.tr)
    · have he2 : e ∈ c2.tr := by simpa [exConn, h2] using fixStep_subs_mem f c1 e he1
      unfold fixLoop
      rcases h3 : fixTableStep f c2 "trending_cache" with c3 | c3
      · simpa [exConn] using (by simpa [exConn, h3] using fixStep_trending_mem f c2 e he2 : e ∈ c3.tr)
      · have he3 : e ∈ c3.tr := by simpa [exConn, h3] using fixStep_trending_mem f c2 e he2
        simpa [fixLoop, exConn] using he3

theorem migrateHistAuto_self_mem (f : Faults) (c : Conn) :
    Event.tableExistsQuery "notification_history" ∈ (migrateHistAuto f c).tr := by
  rcases hp : c.cur.hist with _ | ht
  · unfold migrateHistAuto
    by_cases h1 : f.tableExistsQueryFails "notification_history" = true <;>
      simp_all [emit]
  · unfold migrateHistAuto
    by_cases h1 : f.tableExistsQueryFails "notification_history" = true <;>
      by_cases h2 : f.columnTypeQueryFails "notification_history" = true <;>
      by_cases h3 : acceptableType ht.userIdType = true <;>
      by_cases h4 : f.alterUserIdFails "notification_history" = true <;>
      simp_all [emit, setHist]

theorem migrateSubsAuto_self_mem (f : Faults) (c : Conn) :
    Event.tableExistsQuery "post_subscriptions" ∈ (migrateSubsAuto f c).tr := by
  rcases hp : c.cur.subs with _ | st
  · unfold migrateSubsAuto
    by_cases h1 : f.tableExistsQueryFails "post_subscriptions" = true <;>
      simp_all [emit]
  · unfold migrateSubsAuto
    by_cases h1 : f.tableExistsQueryFails "post_subscriptions" = true <;>
      by_cases h2 : f.columnTypeQueryFails "post_subscriptions" = true <;>
      by_cases h3 : acceptableType st.userIdType = true <;>
      by_cases h4 : f.alterUserIdFails "post_subscriptions" = true <;>
      simp_all [emit, setSubs]

theorem fix_mem_after_prefs (f : Faults) (db : DB) (e : Event)
    (hc : f.connectionFails = false)
    (h : e ∈ (exConn (fixTableStep f (Conn.init db) "notification_preferences")).tr) :
    e ∈ (fix_notification_schema true f db).2.tr := by
  unfold fix_notification_schema
  simp only [hc, Bool.not_true, Bool.false_eq_true, if_false, Bool.not_false, if_true]
  have hloop : fixLoop f tablesToCheckFix (Conn.init db) =
      match fixTableStep f (Conn.init db) "notification_preferences" with
      | .error c => .error c
      | .ok c => fixLoop f ["notification_history", "post_subscriptions",
          "trending_cache"] c := by
    simp [fixLoop, tablesToCheckFix]
  rw [hloop]
  rcases h1 : fixTableStep f (Conn.init db) "notification_preferences" with c1 | c1
  · simpa [exConn, h1] using h
  · have he1 : e ∈ c1.tr := by simpa [exConn, h1] using h
    have hrest := fixLoop_rest_mem f c1 e he1
    dsimp only
    rcases h2 : fixLoop f ["notification_history", "post_subscriptions",
        "trending_cache"] c1 with c2 | c2
    · rw [h2] at hrest
      simpa [exConn] using hrest
    · rw [h2] at hrest
      simp only [exConn] at hrest
      dsimp only
      exact probeFix_mem f _ e (doCommit_mem _ e hrest)

/-- Claim C3 amended: in `auto_migrate_notification_tables` every
per-table block has its own handler, so whatever statements of the
`notification_preferences` detection or repair fail, the blocks for
`notification_history` and `post_subscriptions` are still entered.  In
`fix_notification_schema` only the per-boolean-column fix is contained:
a failing column fix still lets the next column be processed, while a
table-level failure aborts the remaining tables (counterexample). -/
theorem C3_amended (db : DB) (f : Faults) (pt : PrefTable)
    (hp : db.prefs = some pt) (hacc : acceptableType pt.userIdType = false)
    (hq : f.columnTypeQueryFails "notification_preferences" = false)
    (hc : f.connectionFails = false) :
    (Event.tableExistsQuery "notification_history" ∈
       (auto_migrate_notification_tables true f db).2.tr ∧
     Event.tableExistsQuery "post_subscriptions" ∈
       (auto_migrate_notification_tables true f db).2.tr) ∧
    (∀ db2 : DB, ∀ pt2 : PrefTable, db2.prefs = some pt2 →
       acceptableType pt2.userIdType = true →
       Event.alterDropDefault "notification_preferences" "daily_digest" ∈
         (fix_notification_schema true commentColFault db2).2.tr) := by
  constructor
  · have hdet := detect_stale_prefs f (Conn.init db) pt hq
      (by simpa [Conn.init] using hp) hacc
    have hrun : (auto_migrate_notification_tables true f db).2 =
        (probeAuto f (doCommit (migrateSubsAuto f (migrateHistAuto f (migratePrefsAuto f
          (emit (Conn.init db) (.columnTypeQuery "notification_preferences"))))))).2 := by
      unfold auto_migrate_notification_tables
      simp [hc, hdet]
    rw [hrun]
    constructor
    · exact probeAuto_mem _ _ _ (doCommit_mem _ _ (migrateSubsAuto_mem _ _ _
        (migrateHistAuto_self_mem f _)))
    · exact probeAuto_mem _ _ _ (doCommit_mem _ _ (migrateSubsAuto_self_mem f _))
  · intro db2 pt2 hp2 hacc2
    refine fix_mem_after_prefs commentColFault db2 _ rfl ?_
    unfold fixTableStep
    have hex : tableExists db2 "notification_preferences" = true := by
      simp [tableExists, hp2]
    simp [boolFixSection, fixBoolCol, commentColFault, Faults.none, emit, exConn,
      setColDefault_tr, updatePrefCol_tr, hacc2, Conn.init, hex, hp2, userIdTypeOf]

theorem migratePrefsAuto_isSome (f : Faults) (c : Conn) :
    (migratePrefsAuto f c).cur.prefs.isSome = c.cur.prefs.isSome := by
  rcases hp : c.cur.prefs with _ | pt
  · unfold migratePrefsAuto
    by_cases h1 : f.tableExistsQueryFails "notification_preferences" = true <;>
      simp_all [emit]
  · unfold migratePrefsAuto
    by_cases h1 : f.tableExistsQueryFails "notification_preferences" = true <;>
      by_cases h2 : f.columnTypeQueryFails "notification_preferences" = true <;>
      by_cases h3 : acceptableType pt.userIdType = true <;>
      by_cases h4 : f.alterUserIdFails "notification_preferences" = true <;>
      by_cases h5 : f.dropSequenceFails = true <;>
      by_cases h6 : f.alterBoolDefaultsFails = true <;>
      simp_all [emit, setPrefs]

theorem migrateHistAuto_isSome (f : Faults) (c : Conn) :
    (migrateHistAuto f c).cur.hist.isSome = c.cur.hist.isSome := by
  rcases hp : c.cur.hist with _ | ht
  · unfold migrateHistAuto
    by_cases h1 : f.tableExistsQueryFails "notification_history" = true <;>
      simp_all [emit]
  · unfold migrateHistAuto
    by_cases h1 : f.tableExistsQueryFails "notification_history" = true <;>
      by_cases h2 : f.columnTypeQueryFails "notification_history" = true <;>
      by_cases h3 : acceptableType ht.userIdType = true <;>
      by_cases h4 : f.alterUserIdFails "notification_history" = true <;>
      simp_all [emit, setHist]

theorem probeAuto_success (f : Faults) (c : Conn)
    (hp : c.cur.prefs.isSome = true) (hh : c.cur.hist.isSome = true)
    (h1 : f.insertFails "notification_preferences" = false)
    (h2 : f.insertFails "notification_history" = false)
    (h3 : f.deleteFails = false) :
    (probeAuto f c).1 = true := by
  rcases hq : c.cur.prefs with _ | pt
  · simp [hq] at hp
  · unfold probeAuto
    by_cases ha : pt.rows.any (fun r => r.user_id == testUserId) = true <;>
      rcases hr : c.cur.hist with _ | ht <;>
      simp_all [emit, setPrefs, setHist, doCommit]

/-- Claim C4 amended: the reported boolean does not track per-table repair
outcomes.  In `auto_migrate_notification_tables` a failed table repair is
only logged: the run still returns `True` whenever the probe succeeds
(and the probe value fits even an unrepaired column).
`fix_notification_schema` does return `False` when a repair raises, but
it also aborts the pass.  When every managed table is absent, both
reconcilers return `True`; the counterexample shows an absent table can
nevertheless force `False` through the probe. -/
theorem C4_amended (db : DB) (pt : PrefTable) (ht : HistTable)
    (hp : db.prefs = some pt) (hacc : acceptableType pt.userIdType = false)
    (hh : db.hist = some ht) :
    (auto_migrate_notification_tables true prefsAlterFault db).1 = true ∧
    (fix_notification_schema true prefsRecreateFault db).1 = false ∧
    (∀ db0 : DB, db0.prefs = Option.none → db0.hist = Option.none →
      db0.subs = Option.none →
      (auto_migrate_notification_tables true Faults.none db0).1 = true ∧
      (fix_notification_schema true Faults.none db0).1 = true) := by
  refine ⟨?_, ?_, ?_⟩
  · have hdet := detect_stale_prefs prefsAlterFault (Conn.init db) pt rfl
      (by simpa [Conn.init] using hp) hacc
    have hrun : auto_migrate_notification_tables true prefsAlterFault db =
        probeAuto prefsAlterFault (doCommit (migrateSubsAuto prefsAlterFault
          (migrateHistAuto prefsAlterFault (migratePrefsAuto prefsAlterFault
          (emit (Conn.init db) (.columnTypeQuery "notification_preferences")))))) := by
      unfold auto_migrate_notification_tables
      have hcf : prefsAlterFault.connectionFails = false := rfl
      simp [hdet, hcf]
    rw [hrun]
    have hfr1 := migratePrefsAuto_frame prefsAlterFault
      (emit (Conn.init db) (.columnTypeQuery "notification_preferences"))
    have hfr2 := migrateHistAuto_frame prefsAlterFault
      (migratePrefsAuto prefsAlterFault
        (emit (Conn.init db) (.columnTypeQuery "notification_preferences")))
    have hfr3 := migrateSubsAuto_frame prefsAlterFault
      (migrateHistAuto prefsAlterFault (migratePrefsAuto prefsAlterFault
        (emit (Conn.init db) (.columnTypeQuery "notification_preferences"))))
    refine probeAuto_success _ _ ?_ ?_ rfl rfl rfl
    · simp only [doCommit]
      rw [hfr3.1, hfr2.1, migratePrefsAuto_isSome]
      simp [emit, Conn.init, hp]
    · simp only [doCommit]
      rw [hfr3.2.1, migrateHistAuto_isSome]
      rw [hfr1.1]
      simp [emit, Conn.init, hh]
  · unfold fix_notification_schema
    have hstep : fixTableStep prefsRecreateFault (Conn.init db)
        "notification_preferences" =
        .error (emit (emit (emit (Conn.init db)
          (.tableExistsQuery "notification_preferences"))
          (.columnTypeQuery "notification_preferences"))
          (.dropTable "notification_preferences")) := by
      unfold fixTableStep recreateTable
      simp [prefsRecreateFault, Faults.none, tableExists, Conn.init, hp,
        userIdTypeOf, hacc, emit]
    have hloop : fixLoop prefsRecreateFault tablesToCheckFix (Conn.init db) =
        .error (emit (emit (emit (Conn.init db)
          (.tableExistsQuery "notification_preferences"))
          (.columnTypeQuery "notification_preferences"))
          (.dropTable "notification_preferences")) := by
      simp only [tablesToCheckFix, fixLoop, hstep]
    rw [hloop]
    simp [prefsRecreateFault, Faults.none]
  · intro db0 h0p h0h h0s
    constructor
    · unfold auto_migrate_notification_tables
      simp [detectLoop, tablesToCheck, Faults.none, userIdTypeOf, h0p, h0h, h0s,
        emit, Conn.init]
    · unfold fix_notification_schema
      have hl : fixLoop Faults.none tablesToCheckFix (Conn.init db0) =
          .ok (emit (emit (emit (emit (Conn.init db0)
            (.tableExistsQuery "notification_preferences"))
            (.tableExistsQuery "notification_history"))
            (.tableExistsQuery "post_subscriptions"))
            (.tableExistsQuery "trending_cache")) := by
        by_cases htr : db0.trendingExists = true <;>
          simp [fixLoop, tablesToCheckFix, fixTableStep, Faults.none, tableExists,
            Conn.init, h0p, h0h, h0s, emit, htr]
      rw [hl]
      unfold probeFix
      simp [Faults.none, doCommit, emit, Conn.init, h0p]

/-- Claim C3 witness: concrete runs exercising both halves. -/
theorem C3_witness :
    (Event.tableExistsQuery "notification_history" ∈
       (auto_migrate_notification_tables true prefsAlterFault dbRecreate).2.tr ∧
     Event.tableExistsQuery "post_subscriptions" ∈
       (auto_migrate_notification_tables true prefsAlterFault dbRecreate).2.tr) ∧
    Event.alterDropDefault "notification_preferences" "daily_digest" ∈
      (fix_notification_schema true commentColFault dbConformant).2.tr :=
  ⟨(C3_amended dbRecreate prefsAlterFault prefT32 rfl (by decide) rfl rfl).1,
   (C3_amended dbRecreate prefsAlterFault prefT32 rfl (by decide) rfl rfl).2
     dbConformant prefT64 rfl (by decide)⟩

/-- Claim C4 witness: a failed ALTER still reports success in the
in-place script, while a failed recreate reports failure in the
recreate script. -/
theorem C4_witness :
    (auto_migrate_notification_tables true prefsAlterFault dbRecreate).1 = true ∧
    (fix_notification_schema true prefsRecreateFault dbRecreate).1 = false :=
  ⟨(C4_amended dbRecreate prefT32 histT64 rfl (by decide) rfl).1,
   (C4_amended dbRecreate prefT32 histT64 rfl (by decide) rfl).2.1⟩

/-! ### Commit-position lemmas for claim C6 -/

theorem noDDL_of_no_commit (l : List Event) (h : Event.commit ∉ l) :
    noDDLAfterFirstCommit l = true := by
  have hd : l.dropWhile (fun e => !(e == Event.commit)) = [] := by
    rw [List.dropWhile_eq_nil_iff]
    intro x hx
    have hne : x ≠ Event.commit := fun he => h (he ▸ hx)
    simp [hne]
  simp [noDDLAfterFirstCommit, hd]

theorem noDDL_append_commit (l0 l1 : List Event) (h : Event.commit ∉ l0)
    (h1 : l1.all (fun e => !e.isDDL) = true) :
    noDDLAfterFirstCommit (l0 ++ Event.commit :: l1) = true := by
  have hd : (l0 ++ Event.commit :: l1).dropWhile (fun e => !(e == Event.commit)) =
      Event.commit :: l1 := by
    induction l0 with
    | nil => simp
    | cons a l0 ih =>
      have ha : a ≠ Event.commit := fun he => h (by simp [he])
      rw [List.cons_append, List.dropWhile_cons_of_pos (by simp [ha])]
      exact ih (fun hm => h (by simp [hm]))
  simp [noDDLAfterFirstCommit, hd, h1]

theorem probeAuto_tr_shape (f : Faults) (c : Conn) :
    ∃ l, (probeAuto f c).2.tr = c.tr ++ l ∧ l.all (fun e => !e.isDDL) = true := by
  rcases hp : c.cur.prefs with _ | pt
  · refine ⟨[.insertRow "notification_preferences"], ?_, by decide⟩
    unfold probeAuto
    simp [hp, emit]
  · unfold probeAuto
    by_cases h2 : f.insertFails "notification_preferences" = true
    · refine ⟨[.insertRow "notification_preferences"], ?_, by decide⟩
      simp [hp, h2, emit]
    · rcases hh : c.cur.hist with _ | ht
      · refine ⟨[.insertRow "notification_preferences",
          .insertRow "notification_history"], ?_, by decide⟩
        simp [hp, h2, hh, emit, setPrefs, apply_ite Conn.tr,
          apply_ite (fun x : Conn => x.cur.hist)]
      · by_cases h4 : f.insertFails "notification_history" = true
        · refine ⟨[.insertRow "notification_preferences",
            .insertRow "notification_history"], ?_, by decide⟩
          simp [hp, h2, hh, h4, emit, setPrefs, apply_ite Conn.tr,
            apply_ite (fun x : Conn => x.cur.hist)]
        · by_cases h5 : f.deleteFails = true
          · refine ⟨[.insertRow "notification_preferences",
              .insertRow "notification_history", .commit,
              .deleteRows "notification_history"], ?_, by decide⟩
            simp [hp, h2, hh, h4, h5, emit, setPrefs, setHist, doCommit,
              apply_ite Conn.tr, apply_ite (fun x : Conn => x.cur.hist)]
          · refine ⟨[.insertRow "notification_preferences",
              .insertRow "notification_history", .commit,
              .deleteRows "notification_history", .commit], ?_, by decide⟩
            simp [hp, h2, hh, h4, h5, emit, setPrefs, setHist, doCommit,
              apply_ite Conn.tr, apply_ite (fun x : Conn => x.cur.hist)]

theorem probeFix_tr_shape (f : Faults) (c : Conn) :
    ∃ l, (probeFix f c).tr = c.tr ++ l ∧
      l.all (fun e => !e.isDDL && !e.isDestructive) = true := by
  rcases hp : c.cur.prefs with _ | pt
  · refine ⟨[.insertRow "notification_preferences"], ?_, by decide⟩
    unfold probeFix
    simp [hp, emit]
  · unfold probeFix
    by_cases h2 : f.insertFails "notification_preferences" = true
    · refine ⟨[.insertRow "notification_preferences"], ?_, by decide⟩
      simp [hp, h2, emit]
    · rcases hh : c.cur.hist with _ | ht
      · refine ⟨[.insertRow "notification_preferences",
          .insertRow "notification_history"], ?_, by decide⟩
        simp [hp, h2, hh, emit, setPrefs, apply_ite Conn.tr,
          apply_ite (fun x : Conn => x.cur.hist)]
      · by_cases h4 : f.insertFails "notification_history" = true
        · refine ⟨[.insertRow "notification_preferences",
            .insertRow "notification_history"], ?_, by decide⟩
          simp [hp, h2, hh, h4, emit, setPrefs, apply_ite Conn.tr,
            apply_ite (fun x : Conn => x.cur.hist)]
        · refine ⟨[.insertRow "notification_preferences",
            .insertRow "notification_history", .commit,
            .countQuery "notification_preferences",
            .countQuery "notification_history"], ?_, by decide⟩
          simp [hp, h2, hh, h4, emit, setPrefs, setHist, doCommit,
            apply_ite Conn.tr, apply_ite (fun x : Conn => x.cur.hist)]

theorem fixBoolCol_not_commit (f : Faults) (c : Conn) (col : String)
    (h : Event.commit ∉ c.tr) : Event.commit ∉ (fixBoolCol f c col).tr := by
  unfold fixBoolCol
  by_cases h1 : f.boolColFixFails col = true <;>
    simp_all [emit, setColDefault_tr, updatePrefCol_tr]

theorem boolFixSection_not_commit (f : Faults) (c : Conn)
    (h : Event.commit ∉ c.tr) : Event.commit ∉ (exConn (boolFixSection f c)).tr := by
  unfold boolFixSection
  by_cases h1 : f.boolColumnsQueryFails = true
  · simp_all [emit, exConn]
  · simp only [h1, Bool.false_eq_true, if_false]
    exact fixBoolCol_not_commit f _ _ (fixBoolCol_not_commit f _ _
      (fixBoolCol_not_commit f _ _ (by simp [emit, h])))

theorem recreateTable_not_commit (f : Faults) (c : Conn) (t : String)
    (h : Event.commit ∉ c.tr) : Event.commit ∉ (exConn (recreateTable f c t)).tr := by
  unfold recreateTable
  by_cases h1 : f.recreateFails t = true <;>
    by_cases h2 : (t == "notification_preferences") = true <;>
    by_cases h3 : (t == "notification_history") = true <;>
    by_cases h4 : (t == "post_subscriptions") = true <;>
    simp_all [emit, exConn, setPrefs, setHist, setSubs]

theorem fixStep_prefs_not_commit (f : Faults) (c : Conn)
    (h : Event.commit ∉ c.tr) :
    Event.commit ∉ (exConn (fixTableStep f c "notification_preferences")).tr := by
  unfold fixTableStep
  by_cases h1 : f.tableExistsQueryFails "notification_preferences" = true
  · simp_all [emit, exConn]
  · rcases hp : c.cur.prefs with _ | pt
    · simp_all [emit, exConn, tableExists, Option.isSome]
    · by_cases h2 : f.columnTypeQueryFails "notification_preferences" = true
      · simp_all [emit, exConn, tableExists, Option.isSome]
      · by_cases hacc : acceptableType pt.userIdType = true
        · have := boolFixSection_not_commit f
            (emit (emit c (.tableExistsQuery "notification_preferences"))
              (.columnTypeQuery "notification_preferences")) (by simp [emit, h])
          simp_all [emit, exConn, tableExists, Option.isSome, userIdTypeOf]
        · have := recreateTable_not_commit f
            (emit (emit c (.tableExistsQuery "notification_preferences"))
              (.columnTypeQuery "notification_preferences")) "notification_preferences"
            (by simp [emit, h])
          simp_all [emit, exConn, tableExists, Option.isSome, userIdTypeOf]

theorem fixStep_hist_not_commit (f : Faults) (c : Conn)
    (h : Event.commit ∉ c.tr) :
    Event.commit ∉ (exConn (fixTableStep f c "notification_history")).tr := by
  unfold fixTableStep
  by_cases h1 : f.tableExistsQueryFails "notification_history" = true
  · simp_all [emit, exConn]
  · rcases hp : c.cur.hist with _ | ht
    · simp_all [emit, exConn, tableExists, Option.isSome]
    · by_cases h2 : f.columnTypeQueryFails "notification_history" = true
      · simp_all [emit, exConn, tableExists, Option.isSome]
      · by_cases hacc : acceptableType ht.userIdType = true
        · simp_all [emit, exConn, tableExists, Option.isSome, userIdTypeOf]
        · have := recreateTable_not_commit f
            (emit (emit c (.tableExistsQuery "notification_history"))
              (.columnTypeQuery "notification_history")) "notification_history"
            (by simp [emit, h])
          simp_all [emit, exConn, tableExists, Option.isSome, userIdTypeOf]

theorem fixStep_subs_not_commit (f : Faults) (c : Conn)
    (h : Event.commit ∉ c.tr) :
    Event.commit ∉ (exConn (fixTableStep f c "post_subscriptions")).tr := by
  unfold fixTableStep
  by_cases h1 : f.tableExistsQueryFails "post_subscriptions" = true
  · simp_all [emit, exConn]
  · rcases hp : c.cur.subs with _ | st
    · simp_all [emit, exConn, tableExists, Option.isSome]
    · by_cases h2 : f.columnTypeQueryFails "post_subscriptions" = true
      · simp_all [emit, exConn, tableExists, Option.isSome]
      · by_cases hacc : acceptableType st.userIdType = true
        · simp_all [emit, exConn, tableExists, Option.isSome, userIdTypeOf]
        · have := recreateTable_not_commit f
            (emit (emit c (.tableExistsQuery "post_subscriptions"))
              (.columnTypeQuery "post_subscriptions")) "post_subscriptions"
            (by simp [emit, h])
          simp_all [emit, exConn, tableExists, Option.isSome, userIdTypeOf]

theorem fixStep_trending_not_commit (f : Faults) (c : Conn)
    (h : Event.commit ∉ c.tr) :
    Event.commit ∉ (exConn (fixTableStep f c "trending_cache")).tr := by
  unfold fixTableStep
  by_cases h1 : f.tableExistsQueryFails "trending_cache" = true <;>
    by_cases h2 : tableExists c.cur "trending_cache" = true <;>
    simp_all [emit, exConn]

theorem fixLoop_rest_not_commit (f : Faults) (c : Conn)
    (h : Event.commit ∉ c.tr) :
    Event.commit ∉ (exConn (fixLoop f ["notification_history", "post_subscriptions",
      "trending_cache"] c)).tr := by
  unfold fixLoop
  rcases h1 : fixTableStep f c "notification_history" with c1 | c1
  · simpa [exConn] using (by simpa [exConn, h1] using fixStep_hist_not_commit f c h :
      Event.commit ∉ c1.tr)
  · have he1 : Event.commit ∉ c1.tr := by
      simpa [exConn, h1] using fixStep_hist_not_commit f c h
    unfold fixLoop
    rcases h2 : fixTableStep f c1 "post_subscriptions" with c2 | c2
    · simpa [exConn] using (by simpa [exConn, h2] using fixStep_subs_not_commit f c1 he1 :
        Event.commit ∉ c2.tr)
    · have he2 : Event.commit ∉ c2.tr := by
        simpa [exConn, h2] using fixStep_subs_not_commit f c1 he1
      unfold fixLoop
      rcases h3 : fixTableStep f c2 "trending_cache" with c3 | c3
      · simpa [exConn] using (by simpa [exConn, h3] using
          fixStep_trending_not_commit f c2 he2 : Event.commit ∉ c3.tr)
      · have he3 : Event.commit ∉ c3.tr := by
          simpa [exConn, h3] using fixStep_trending_not_commit f c2 he2
        simpa [fixLoop, exConn] using he3

/-- Claim C6 amended: each pass issues all its schema DDL before its
first COMMIT — the repairs are committed once, after all the tables'
blocks, never per table.  The claim's further consequence, that a later
table's failure leaves an entirely pre- or entirely post-migration
state, does not hold: a caught per-table failure still lets the single
commit publish a half-migrated schema (see the counterexample). -/
theorem C6_amended (usePg : Bool) (f : Faults) (db : DB) :
    noDDLAfterFirstCommit (auto_migrate_notification_tables usePg f db).2.tr = true ∧
    noDDLAfterFirstCommit (fix_notification_schema usePg f db).2.tr = true := by
  rcases usePg with _ | _
  · constructor <;>
      simp [auto_migrate_notification_tables, fix_notification_schema, Conn.init,
        noDDLAfterFirstCommit]
  · by_cases hcf : f.connectionFails = true
    · constructor <;>
        simp [auto_migrate_notification_tables, fix_notification_schema, Conn.init,
          noDDLAfterFirstCommit, hcf]
    · constructor
      · obtain ⟨l, hl, hall⟩ := detectLoop_tr f tablesToCheck (Conn.init db)
        rcases hdet : detectLoop f tablesToCheck (Conn.init db) with ⟨needed, c⟩
        rw [hdet] at hl
        simp only [Conn.init] at hl
        have hnc : Event.commit ∉ c.tr := by
          rw [hl]
          simpa using not_mem_of_all hall (by rfl)
        have hrun : (auto_migrate_notification_tables true f db).2 =
            if !needed then c
            else (probeAuto f (doCommit (migrateSubsAuto f (migrateHistAuto f
              (migratePrefsAuto f c))))).2 := by
          unfold auto_migrate_notification_tables
          simp only [hcf, hdet, Bool.not_true, Bool.false_eq_true, if_false]
          rcases needed with _ | _ <;> simp
        rw [hrun]
        rcases needed with _ | _
        · simp only [Bool.not_false, if_true]
          exact noDDL_of_no_commit _ hnc
        · simp only [Bool.not_true, Bool.false_eq_true, if_false]
          have hncB : Event.commit ∉ (migrateSubsAuto f (migrateHistAuto f
              (migratePrefsAuto f c))).tr := by
            refine migrateSubsAuto_not_mem _ _ _ ?_ (by decide) (by decide) (by decide)
            refine migrateHistAuto_not_mem _ _ _ ?_ (by decide) (by decide) (by decide)
            exact migratePrefsAuto_not_mem _ _ _ hnc (by decide) (by decide) (by decide)
              (by decide) (by decide)
          obtain ⟨lp, hlp, hallp⟩ := probeAuto_tr_shape f (doCommit (migrateSubsAuto f
            (migrateHistAuto f (migratePrefsAuto f c))))
          rw [hlp]
          simp only [doCommit, List.append_assoc, List.singleton_append]
          exact noDDL_append_commit _ _ hncB hallp
      · unfold fix_notification_schema
        simp only [hcf, Bool.not_true, Bool.false_eq_true, if_false, Bool.not_false,
          if_true]
        have hloop : fixLoop f tablesToCheckFix (Conn.init db) =
            match fixTableStep f (Conn.init db) "notification_preferences" with
            | .error c => .error c
            | .ok c => fixLoop f ["notification_history", "post_subscriptions",
                "trending_cache"] c := by
          simp [fixLoop, tablesToCheckFix]
        rw [hloop]
        have hnc0 : Event.commit ∉
            (exConn (fixTableStep f (Conn.init db) "notification_preferences")).tr :=
          fixStep_prefs_not_commit f (Conn.init db) (by simp [Conn.init])
        rcases h1 : fixTableStep f (Conn.init db) "notification_preferences" with c1 | c1
        · rw [h1] at hnc0
          simp only [exConn] at hnc0
          exact noDDL_of_no_commit _ hnc0
        · rw [h1] at hnc0
          simp only [exConn] at hnc0
          have hrest := fixLoop_rest_not_commit f c1 hnc0
          dsimp only
          rcases h2 : fixLoop f ["notification_history", "post_subscriptions",
              "trending_cache"] c1 with c2 | c2
          · rw [h2] at hrest
            simp only [exConn] at hrest
            exact noDDL_of_no_commit _ hrest
          · rw [h2] at hrest
            simp only [exConn] at hrest
            obtain ⟨lp, hlp, hallp⟩ := probeFix_tr_shape f (doCommit c2)
            have hallp2 : lp.all (fun e => !e.isDDL) = true := by
              rw [List.all_eq_true] at hallp ⊢
              intro e he
              have := hallp e he
              simp only [Bool.and_eq_true] at this
              exact this.1
            dsimp only
            rw [hlp]
            simp only [doCommit, List.append_assoc, List.singleton_append]
            exact noDDL_append_commit _ _ hrest hallp2

theorem boolFixSection_prefs (c : Conn) (pt : PrefTable) (hp : c.cur.prefs = some pt) :
    ∃ c', boolFixSection Faults.none c = .ok c' ∧
      c'.cur.prefs = some { pt with
          commentDefault := some "true",
          digestDefault := some "true",
          trendingDefault := some "true",
          rows := pt.rows.map fixPrefRow } ∧
      c'.cur.hist = c.cur.hist ∧ c'.cur.subs = c.cur.subs ∧
      c'.cur.trendingExists = c.cur.trendingExists ∧ c'.committed = c.committed := by
  unfold boolFixSection fixBoolCol
  refine ⟨_, rfl, ?_, ?_, ?_, ?_, ?_⟩ <;>
    simp [Faults.none, emit, setColDefault, updatePrefCol, setPrefs, hp, fixPrefRow,
      List.map_map, Function.comp]

theorem fixStep_trending_ok (c : Conn) :
    fixTableStep Faults.none c "trending_cache" =
      .ok (emit c (.tableExistsQuery "trending_cache")) := by
  unfold fixTableStep
  by_cases h : tableExists c.cur "trending_cache" = true <;>
    simp [Faults.none, h, emit]

theorem fixStep_prefs_ok (c : Conn) :
    ∃ c', fixTableStep Faults.none c "notification_preferences" = .ok c' ∧
      c'.cur.hist = c.cur.hist ∧ c'.cur.subs = c.cur.subs ∧
      c'.cur.trendingExists = c.cur.trendingExists ∧ c'.committed = c.committed ∧
      (∀ pt', c'.cur.prefs = some pt' → acceptableType pt'.userIdType = true) ∧
      (c.cur.prefs = Option.none → c'.cur.prefs = Option.none) ∧
      (∀ pt, c.cur.prefs = some pt → acceptableType pt.userIdType = true →
        c'.cur.prefs = some { pt with
          commentDefault := some "true",
          digestDefault := some "true",
          trendingDefault := some "true",
          rows := pt.rows.map fixPrefRow }) := by
  rcases hp : c.cur.prefs with _ | pt
  · refine ⟨emit c (.tableExistsQuery "notification_preferences"), ?_, ?_, ?_, ?_, ?_,
      ?_, ?_, ?_⟩ <;>
      simp_all [fixTableStep, Faults.none, tableExists, emit]
  · by_cases hacc : acceptableType pt.userIdType = true
    · obtain ⟨c', hc', hps, hh, hs, htr, hcm⟩ := boolFixSection_prefs
        (emit (emit c (.tableExistsQuery "notification_preferences"))
          (.columnTypeQuery "notification_preferences")) pt (by simpa [emit] using hp)
      refine ⟨c', ?_, ?_, ?_, ?_, ?_, ?_, ?_, ?_⟩ <;>
        simp_all [fixTableStep, Faults.none, tableExists, emit, userIdTypeOf]
    · refine ⟨setPrefs (emit (emit (emit (emit c
          (.tableExistsQuery "notification_preferences"))
          (.columnTypeQuery "notification_preferences"))
          (.dropTable "notification_preferences"))
          (.createTable "notification_preferences")) (some freshPrefs),
        ?_, ?_, ?_, ?_, ?_, ?_, ?_, ?_⟩ <;>
        simp_all [fixTableStep, recreateTable, Faults.none, tableExists, emit,
          userIdTypeOf, setPrefs, freshPrefs, acceptableType, lowerString]

theorem fixStep_hist_ok (c : Conn) :
    ∃ c', fixTableStep Faults.none c "notification_history" = .ok c' ∧
      c'.cur.prefs = c.cur.prefs ∧ c'.cur.subs = c.cur.subs ∧
      c'.cur.trendingExists = c.cur.trendingExists ∧ c'.committed = c.committed ∧
      (∀ ht', c'.cur.hist = some ht' → acceptableType ht'.userIdType = true) ∧
      (∀ ht, c.cur.hist = some ht → acceptableType ht.userIdType = true →
        c'.cur.hist = some ht) ∧
      (c.cur.hist = Option.none → c'.cur.hist = Option.none) := by
  rcases hh : c.cur.hist with _ | ht
  · refine ⟨emit c (.tableExistsQuery "notification_history"), ?_, ?_, ?_, ?_, ?_,
      ?_, ?_, ?_⟩ <;>
      simp_all [fixTableStep, Faults.none, tableExists, emit]
  · by_cases hacc : acceptableType ht.userIdType = true
    · refine ⟨emit (emit c (.tableExistsQuery "notification_history"))
          (.columnTypeQuery "notification_history"), ?_, ?_, ?_, ?_, ?_, ?_, ?_, ?_⟩ <;>
        simp_all [fixTableStep, Faults.none, tableExists, emit, userIdTypeOf]
    · refine ⟨setHist (emit (emit (emit (emit c
          (.tableExistsQuery "notification_history"))
          (.columnTypeQuery "notification_history"))
          (.dropTable "notification_history"))
          (.createTable "notification_history")) (some ⟨"bigint", []⟩),
        ?_, ?_, ?_, ?_, ?_, ?_, ?_, ?_⟩ <;>
        simp_all [fixTableStep, recreateTable, Faults.none, tableExists, emit,
          userIdTypeOf, setHist, acceptableType, lowerString]

theorem fixStep_subs_ok (c : Conn) :
    ∃ c', fixTableStep Faults.none c "post_subscriptions" = .ok c' ∧
      c'.cur.prefs = c.cur.prefs ∧ c'.cur.hist = c.cur.hist ∧
      c'.cur.trendingExists = c.cur.trendingExists ∧ c'.committed = c.committed ∧
      (∀ st', c'.cur.subs = some st' → acceptableType st'.userIdType = true) ∧
      (∀ st, c.cur.subs = some st → acceptableType st.userIdType = true →
        c'.cur.subs = some st) ∧
      (c.cur.subs = Option.none → c'.cur.subs = Option.none) := by
  rcases hs : c.cur.subs with _ | st
  · refine ⟨emit c (.tableExistsQuery "post_subscriptions"), ?_, ?_, ?_, ?_, ?_,
      ?_, ?_, ?_⟩ <;>
      simp_all [fixTableStep, Faults.none, tableExists, emit]
  · by_cases hacc : acceptableType st.userIdType = true
    · refine ⟨emit (emit c (.tableExistsQuery "post_subscriptions"))
          (.columnTypeQuery "post_subscriptions"), ?_, ?_, ?_, ?_, ?_, ?_, ?_, ?_⟩ <;>
        simp_all [fixTableStep, Faults.none, tableExists, emit, userIdTypeOf]
    · refine ⟨setSubs (emit (emit (emit (emit c
          (.tableExistsQuery "post_subscriptions"))
          (.columnTypeQuery "post_subscriptions"))
          (.dropTable "post_subscriptions"))
          (.createTable "post_subscriptions")) (some ⟨"bigint", []⟩),
        ?_, ?_, ?_, ?_, ?_, ?_, ?_, ?_⟩ <;>
        simp_all [fixTableStep, recreateTable, Faults.none, tableExists, emit,
          userIdTypeOf, setSubs, acceptableType, lowerString]

theorem setColDefault_frame (c : Conn) (col : String) (d : Option String) :
    (setColDefault c col d).cur.hist = c.cur.hist ∧
    (setColDefault c col d).cur.subs = c.cur.subs ∧
    (setColDefault c col d).cur.trendingExists = c.cur.trendingExists ∧
    (setColDefault c col d).committed = c.committed := by
  unfold setColDefault
  rcases c.cur.prefs with _ | pt
  · exact ⟨rfl, rfl, rfl, rfl⟩
  · by_cases h1 : (col == "comment_notifications") = true <;>
      by_cases h2 : (col == "daily_digest") = true <;>
      by_cases h3 : (col == "trending_alerts") = true <;>
      simp_all [setPrefs]

theorem updatePrefCol_frame (c : Conn) (col : String) (g : Cell → Cell) :
    (updatePrefCol c col g).cur.hist = c.cur.hist ∧
    (updatePrefCol c col g).cur.subs = c.cur.subs ∧
    (updatePrefCol c col g).cur.trendingExists = c.cur.trendingExists ∧
    (updatePrefCol c col g).committed = c.committed := by
  unfold updatePrefCol
  rcases c.cur.prefs with _ | pt
  · exact ⟨rfl, rfl, rfl, rfl⟩
  · simp [setPrefs]

theorem fixBoolCol_frame (f : Faults) (c : Conn) (col : String) :
    (fixBoolCol f c col).cur.hist = c.cur.hist ∧
    (fixBoolCol f c col).cur.subs = c.cur.subs ∧
    (fixBoolCol f c col).cur.trendingExists = c.cur.trendingExists ∧
    (fixBoolCol f c col).committed = c.committed := by
  unfold fixBoolCol
  by_cases h1 : f.boolColFixFails col = true
  · simp [h1, emit]
  · simp only [h1, Bool.false_eq_true, if_false]
    have hu := updatePrefCol_frame (emit (setColDefault (emit (setColDefault
      (emit c (.alterDropDefault "notification_preferences" col)) col Option.none)
      (.alterSetDefault "notification_preferences" col)) col (some "true"))
      (.updateRows "notification_preferences" col)) col fixBoolCell
    have hs1 := setColDefault_frame (emit c
      (.alterDropDefault "notification_preferences" col)) col Option.none
    have hs2 := setColDefault_frame (emit (setColDefault (emit c
      (.alterDropDefault "notification_preferences" col)) col Option.none)
      (.alterSetDefault "notification_preferences" col)) col (some "true")
    simp_all [emit]

theorem boolFixSection_frame (f : Faults) (c : Conn) :
    (exConn (boolFixSection f c)).cur.hist = c.cur.hist ∧
    (exConn (boolFixSection f c)).cur.subs = c.cur.subs ∧
    (exConn (boolFixSection f c)).cur.trendingExists = c.cur.trendingExists ∧
    (exConn (boolFixSection f c)).committed = c.committed := by
  unfold boolFixSection
  by_cases h1 : f.boolColumnsQueryFails = true
  · simp [h1, emit, exConn]
  · simp only [h1, Bool.false_eq_true, if_false]
    have ha := fixBoolCol_frame f (emit c
      (.boolColumnsQuery "notification_preferences")) "comment_notifications"
    have hb := fixBoolCol_frame f (fixBoolCol f (emit c
      (.boolColumnsQuery "notification_preferences")) "comment_notifications")
      "daily_digest"
    have hc := fixBoolCol_frame f (fixBoolCol f (fixBoolCol f (emit c
      (.boolColumnsQuery "notification_preferences")) "comment_notifications")
      "daily_digest") "trending_alerts"
    simp_all [emit, exConn]

theorem fixStep_prefs_frame (f : Faults) (c : Conn) :
    (exConn (fixTableStep f c "notification_preferences")).cur.hist = c.cur.hist ∧
    (exConn (fixTableStep f c "notification_preferences")).cur.subs = c.cur.subs ∧
    (exConn (fixTableStep f c "notification_preferences")).cur.trendingExists =
      c.cur.trendingExists ∧
    (exConn (fixTableStep f c "notification_preferences")).committed = c.committed := by
  unfold fixTableStep
  by_cases h1 : f.tableExistsQueryFails "notification_preferences" = true
  · simp_all [emit, exConn]
  · rcases hp : c.cur.prefs with _ | pt
    · simp_all [emit, exConn, tableExists, Option.isSome]
    · by_cases h2 : f.columnTypeQueryFails "notification_preferences" = true
      · simp_all [emit, exConn, tableExists, Option.isSome]
      · by_cases hacc : acceptableType pt.userIdType = true
        · have := boolFixSection_frame f
            (emit (emit c (.tableExistsQuery "notification_preferences"))
              (.columnTypeQuery "notification_preferences"))
          simp_all [emit, exConn, tableExists, Option.isSome, userIdTypeOf]
        · unfold recreateTable
          by_cases h3 : f.recreateFails "notification_preferences" = true <;>
            simp_all [emit, exConn, tableExists, Option.isSome, userIdTypeOf, setPrefs]

theorem fixStep_hist_frame (f : Faults) (c : Conn) :
    (exConn (fixTableStep f c "notification_history")).cur.prefs = c.cur.prefs ∧
    (exConn (fixTableStep f c "notification_history")).cur.subs = c.cur.subs ∧
    (exConn (fixTableStep f c "notification_history")).cur.trendingExists =
      c.cur.trendingExists ∧
    (exConn (fixTableStep f c "notification_history")).committed = c.committed := by
  unfold fixTableStep
  by_cases h1 : f.tableExistsQueryFails "notification_history" = true
  · simp_all [emit, exConn]
  · rcases hp : c.cur.hist with _ | ht
    · simp_all [emit, exConn, tableExists, Option.isSome]
    · by_cases h2 : f.columnTypeQueryFails "notification_history" = true
      · simp_all [emit, exConn, tableExists, Option.isSome]
      · by_cases hacc : acceptableType ht.userIdType = true
        · simp_all [emit, exConn, tableExists, Option.isSome, userIdTypeOf]
        · unfold recreateTable
          by_cases h3 : f.recreateFails "notification_history" = true <;>
            simp_all [emit, exConn, tableExists, Option.isSome, userIdTypeOf, setHist]

theorem fixStep_subs_frame (f : Faults) (c : Conn) :
    (exConn (fixTableStep f c "post_subscriptions")).cur.prefs = c.cur.prefs ∧
    (exConn (fixTableStep f c "post_subscriptions")).cur.hist = c.cur.hist ∧
    (exConn (fixTableStep f c "post_subscriptions")).cur.trendingExists =
      c.cur.trendingExists ∧
    (exConn (fixTableStep f c "post_subscriptions")).committed = c.committed := by
  unfold fixTableStep
  by_cases h1 : f.tableExistsQueryFails "post_subscriptions" = true
  · simp_all [emit, exConn]
  · rcases hp : c.cur.subs with _ | st
    · simp_all [emit, exConn, tableExists, Option.isSome]
    · by_cases h2 : f.columnTypeQueryFails "post_subscriptions" = true
      · simp_all [emit, exConn, tableExists, Option.isSome]
      · by_cases hacc : acceptableType st.userIdType = true
        · simp_all [emit, exConn, tableExists, Option.isSome, userIdTypeOf]
        · unfold recreateTable
          by_cases h3 : f.recreateFails "post_subscriptions" = true <;>
            simp_all [emit, exConn, tableExists, Option.isSome, userIdTypeOf, setSubs]

theorem fixStep_trending_frame (f : Faults) (c : Conn) :
    (exConn (fixTableStep f c "trending_cache")).cur = c.cur ∧
    (exConn (fixTableStep f c "trending_cache")).committed = c.committed := by
  unfold fixTableStep
  by_cases h1 : f.tableExistsQueryFails "trending_cache" = true <;>
    by_cases h2 : tableExists c.cur "trending_cache" = true <;>
    simp_all [emit, exConn]

theorem fixBoolCol_nd (f : Faults) (c : Conn) (col : String)
    (h : ∀ e ∈ c.tr, e.isDestructive = false) :
    ∀ e ∈ (fixBoolCol f c col).tr, e.isDestructive = false := by
  unfold fixBoolCol
  by_cases h1 : f.boolColFixFails col = true <;>
    simp_all [emit, setColDefault_tr, updatePrefCol_tr] <;> aesop

theorem boolFixSection_nd (f : Faults) (c : Conn)
    (h : ∀ e ∈ c.tr, e.isDestructive = false) :
    ∀ e ∈ (exConn (boolFixSection f c)).tr, e.isDestructive = false := by
  unfold boolFixSection
  by_cases h1 : f.boolColumnsQueryFails = true
  · simp_all [emit, exConn] <;> aesop
  · simp only [h1, Bool.false_eq_true, if_false]
    refine fixBoolCol_nd f _ _ (fixBoolCol_nd f _ _ (fixBoolCol_nd f _ _ ?_))
    simp_all [emit] <;> aesop

theorem fixStep_prefs_nd (f : Faults) (c : Conn)
    (hconf : tableConformant c.cur "notification_preferences" = true)
    (h : ∀ e ∈ c.tr, e.isDestructive = false) :
    ∀ e ∈ (exConn (fixTableStep f c "notification_preferences")).tr,
      e.isDestructive = false := by
  unfold fixTableStep
  by_cases h1 : f.tableExistsQueryFails "notification_preferences" = true
  · simp_all [emit, exConn] <;> aesop
  · rcases hp : c.cur.prefs with _ | pt
    · simp_all [emit, exConn, tableExists, Option.isSome] <;> aesop
    · by_cases h2 : f.columnTypeQueryFails "notification_preferences" = true
      · simp_all [emit, exConn, tableExists, Option.isSome] <;> aesop
      · by_cases hacc : acceptableType pt.userIdType = true
        · have := boolFixSection_nd f
            (emit (emit c (.tableExistsQuery "notification_preferences"))
              (.columnTypeQuery "notification_preferences"))
            (by simp_all [emit] <;> aesop)
          simp_all [emit, exConn, tableExists, Option.isSome, userIdTypeOf]
        · simp_all [tableConformant, userIdTypeOf]

theorem fixStep_hist_nd (f : Faults) (c : Conn)
    (hconf : tableConformant c.cur "notification_history" = true)
    (h : ∀ e ∈ c.tr, e.isDestructive = false) :
    ∀ e ∈ (exConn (fixTableStep f c "notification_history")).tr,
      e.isDestructive = false := by
  unfold fixTableStep
  by_cases h1 : f.tableExistsQueryFails "notification_history" = true
  · simp_all [emit, exConn] <;> aesop
  · rcases hp : c.cur.hist with _ | ht
    · simp_all [emit, exConn, tableExists, Option.isSome] <;> aesop
    · by_cases h2 : f.columnTypeQueryFails "notification_history" = true
      · simp_all [emit, exConn, tableExists, Option.isSome] <;> aesop
      · by_cases hacc : acceptableType ht.userIdType = true
        · simp_all [emit, exConn, tableExists, Option.isSome, userIdTypeOf] <;> aesop
        · simp_all [tableConformant, userIdTypeOf]

theorem fixStep_subs_nd (f : Faults) (c : Conn)
    (hconf : tableConformant c.cur "post_subscriptions" = true)
    (h : ∀ e ∈ c.tr, e.isDestructive = false) :
    ∀ e ∈ (exConn (fixTableStep f c "post_subscriptions")).tr,
      e.isDestructive = false := by
  unfold fixTableStep
  by_cases h1 : f.tableExistsQueryFails "post_subscriptions" = true
  · simp_all [emit, exConn] <;> aesop
  · rcases hp : c.cur.subs with _ | st
    · simp_all [emit, exConn, tableExists, Option.isSome] <;> aesop
    · by_cases h2 : f.columnTypeQueryFails "post_subscriptions" = true
      · simp_all [emit, exConn, tableExists, Option.isSome] <;> aesop
      · by_cases hacc : acceptableType st.userIdType = true
        · simp_all [emit, exConn, tableExists, Option.isSome, userIdTypeOf] <;> aesop
        · simp_all [tableConformant, userIdTypeOf]

theorem fixStep_trending_nd (f : Faults) (c : Conn)
    (h : ∀ e ∈ c.tr, e.isDestructive = false) :
    ∀ e ∈ (exConn (fixTableStep f c "trending_cache")).tr, e.isDestructive = false := by
  unfold fixTableStep
  by_cases h1 : f.tableExistsQueryFails "trending_cache" = true <;>
    by_cases h2 : tableExists c.cur "trending_cache" = true <;>
    simp_all [emit, exConn] <;> aesop

theorem probeFix_nd (f : Faults) (c : Conn)
    (h : ∀ e ∈ c.tr, e.isDestructive = false) :
    ∀ e ∈ (probeFix f c).tr, e.isDestructive = false := by
  obtain ⟨l, hl, hall⟩ := probeFix_tr_shape f c
  rw [hl]
  intro e he
  rcases List.mem_append.mp he with h1 | h1
  · exact h e h1
  · have := List.all_eq_true.mp hall e h1
    simp only [Bool.and_eq_true, Bool.not_eq_true'] at this
    exact this.2

theorem doCommit_nd (c : Conn)
    (h : ∀ e ∈ c.tr, e.isDestructive = false) :
    ∀ e ∈ (doCommit c).tr, e.isDestructive = false := by
  unfold doCommit
  simp_all [List.forall_mem_append] <;> aesop

theorem probeFix_committed_conf (f : Faults) (c : Conn)
    (h1 : tableConformant c.cur "notification_preferences" = true)
    (h2 : tableConformant c.cur "notification_history" = true)
    (h3 : tableConformant c.cur "post_subscriptions" = true)
    (g1 : tableConformant c.committed "notification_preferences" = true)
    (g2 : tableConformant c.committed "notification_history" = true)
    (g3 : tableConformant c.committed "post_subscriptions" = true) :
    tableConformant (probeFix f c).committed "notification_preferences" = true ∧
    tableConformant (probeFix f c).committed "notification_history" = true ∧
    tableConformant (probeFix f c).committed "post_subscriptions" = true := by
  rcases hp : c.cur.prefs with _ | pt
  · unfold probeFix
    simp_all [emit]
  · unfold probeFix
    by_cases hf2 : f.insertFails "notification_preferences" = true
    · simp_all [emit]
    · by_cases ha : ∃ x ∈ pt.rows, x.user_id = testUserId
      · rcases hh : c.cur.hist with _ | ht <;>
          by_cases hf4 : f.insertFails "notification_history" = true <;>
          simp_all [emit, setPrefs, setHist, doCommit, if_pos ha, tableConformant,
            userIdTypeOf]
      · rcases hh : c.cur.hist with _ | ht <;>
          by_cases hf4 : f.insertFails "notification_history" = true <;>
          simp_all [emit, setPrefs, setHist, doCommit, if_neg ha, tableConformant,
            userIdTypeOf]

theorem probeFix_committed_prefs (f : Faults) (c : Conn) (pt : PrefTable)
    (hcur : c.cur.prefs = some pt) (hcom : c.committed.prefs = some pt) :
    ∃ pt', (probeFix f c).committed.prefs = some pt' ∧
      pt'.userIdType = pt.userIdType ∧ (∀ r ∈ pt.rows, r ∈ pt'.rows) := by
  unfold probeFix
  by_cases hf2 : f.insertFails "notification_preferences" = true
  · exact ⟨pt, by simp_all [emit], rfl, fun r hr => hr⟩
  · by_cases ha : ∃ x ∈ pt.rows, x.user_id = testUserId
    · rcases hh : c.cur.hist with _ | ht
      · exact ⟨pt, by simp_all [emit, setPrefs, if_pos ha], rfl, fun r hr => hr⟩
      · by_cases hf4 : f.insertFails "notification_history" = true
        · exact ⟨pt, by simp_all [emit, setPrefs, setHist, if_pos ha], rfl,
            fun r hr => hr⟩
        · refine ⟨pt, ?_, rfl, fun r hr => hr⟩
          simp_all [emit, setPrefs, setHist, doCommit, if_pos ha]
    · rcases hh : c.cur.hist with _ | ht
      · exact ⟨pt, by simp_all [emit, setPrefs, if_neg ha], rfl, fun r hr => hr⟩
      · by_cases hf4 : f.insertFails "notification_history" = true
        · exact ⟨pt, by simp_all [emit, setPrefs, setHist, if_neg ha], rfl,
            fun r hr => hr⟩
        · refine ⟨{ pt with rows := pt.rows ++ [⟨testUserId, .boolCell true,
            .boolCell true, .boolCell true⟩] }, ?_, rfl, fun r hr => by simp [hr]⟩
          simp_all [emit, setPrefs, setHist, doCommit, if_neg ha]

theorem fixBoolCell_idem (x : Cell) : fixBoolCell (fixBoolCell x) = fixBoolCell x := by
  rcases x with n | b
  · by_cases h1 : toString n = "1"
    · simp [fixBoolCell, Cell.toText, h1]
    · by_cases h0 : toString n = "0"
      · simp [fixBoolCell, Cell.toText, h1, h0]
      · simp [fixBoolCell, Cell.toText, h1, h0]
  · rcases b with _ | _ <;> simp [fixBoolCell, Cell.toText]

theorem fixPrefRow_idem (r : PrefRow) : fixPrefRow (fixPrefRow r) = fixPrefRow r := by
  simp [fixPrefRow, fixBoolCell_idem]

theorem fix_conformant_prefs (db : DB) (pt : PrefTable)
    (hp : db.prefs = some pt) (hacc : acceptableType pt.userIdType = true) :
    ∃ pt', (fix_notification_schema true Faults.none db).2.committed.prefs = some pt' ∧
      pt'.userIdType = pt.userIdType ∧
      (∀ r ∈ pt.rows, fixPrefRow r ∈ pt'.rows) := by
  obtain ⟨c1, heq1, hh1, hs1, ht1, hcm1, _, _, hexact⟩ := fixStep_prefs_ok (Conn.init db)
  have hc1p : c1.cur.prefs = some { pt with
      commentDefault := some "true", digestDefault := some "true",
      trendingDefault := some "true", rows := pt.rows.map fixPrefRow } :=
    hexact pt (by simpa [Conn.init] using hp) hacc
  obtain ⟨c2, heq2, hp2, hs2, ht2, hcm2, _, _, _⟩ := fixStep_hist_ok c1
  obtain ⟨c3, heq3, hp3, hh3, ht3, hcm3, _, _, _⟩ := fixStep_subs_ok c2
  have heq4 := fixStep_trending_ok c3
  have hloop : fixLoop Faults.none tablesToCheckFix (Conn.init db) =
      .ok (emit c3 (.tableExistsQuery "trending_cache")) := by
    simp only [tablesToCheckFix, fixLoop, heq1, heq2, heq3, heq4]
  have hrun : fix_notification_schema true Faults.none db =
      (true, probeFix Faults.none (doCommit (emit c3
        (.tableExistsQuery "trending_cache")))) := by
    unfold fix_notification_schema
    have hcf : Faults.none.connectionFails = false := rfl
    simp [hcf, hloop]
  have hc3p : c3.cur.prefs = some { pt with
      commentDefault := some "true", digestDefault := some "true",
      trendingDefault := some "true", rows := pt.rows.map fixPrefRow } := by
    rw [hp3, hp2, hc1p]
  obtain ⟨pt', hpt', hty', hmem'⟩ := probeFix_committed_prefs Faults.none
    (doCommit (emit c3 (.tableExistsQuery "trending_cache")))
    { pt with
        commentDefault := some "true",
        digestDefault := some "true",
        trendingDefault := some "true",
        rows := pt.rows.map fixPrefRow }
    (by simp [doCommit, emit, hc3p]) (by simp [doCommit, emit, hc3p])
  refine ⟨pt', ?_, by simpa using hty', ?_⟩
  · rw [hrun]
    exact hpt'
  · intro r hr
    exact hmem' (fixPrefRow r) (by simpa using List.mem_map_of_mem fixPrefRow hr)

/-- Claim C7: on a table whose `user_id` is already conformant,
`fix_notification_schema` rewrites every stored boolean cell through the
CASE expression: a legacy `'1'` becomes logical true, `'0'` false, and an
already-boolean value is left unchanged; the rewrite is idempotent, so a
second run leaves a rewritten-true row true (shown both on the CASE
function and on the committed state of two consecutive runs). -/
theorem C7_boolean_rewrite (db : DB) (pt : PrefTable)
    (hp : db.prefs = some pt) (hacc : acceptableType pt.userIdType = true) :
    (∃ pt', (fix_notification_schema true Faults.none db).2.committed.prefs = some pt' ∧
       ∀ r ∈ pt.rows, fixPrefRow r ∈ pt'.rows) ∧
    (∃ pt2, (fix_notification_schema true Faults.none
        (fix_notification_schema true Faults.none db).2.committed).2.committed.prefs =
          some pt2 ∧ ∀ r ∈ pt.rows, fixPrefRow r ∈ pt2.rows) ∧
    fixBoolCell (.intCell 1) = .boolCell true ∧
    fixBoolCell (.intCell 0) = .boolCell false ∧
    (∀ b, fixBoolCell (.boolCell b) = .boolCell b) ∧
    (∀ r, fixPrefRow (fixPrefRow r) = fixPrefRow r) := by
  obtain ⟨pt1, h1, hty1, hrows1⟩ := fix_conformant_prefs db pt hp hacc
  obtain ⟨pt2, h2, hty2, hrows2⟩ := fix_conformant_prefs
    (fix_notification_schema true Faults.none db).2.committed pt1 h1
    (by rw [hty1]; exact hacc)
  refine ⟨⟨pt1, h1, hrows1⟩, ⟨pt2, h2, ?_⟩, by decide, by decide,
    by intro b; rcases b with _ | _ <;> simp [fixBoolCell, Cell.toText],
    fixPrefRow_idem⟩
  intro r hr
  have := hrows2 (fixPrefRow r) (hrows1 r hr)
  rwa [fixPrefRow_idem] at this

/-- Claim C7 witness: concrete conformant table holding a legacy `'1'`. -/
theorem C7_witness :
    ∃ pt', (fix_notification_schema true Faults.none dbConformant).2.committed.prefs =
      some pt' ∧ ∀ r ∈ prefT64.rows, fixPrefRow r ∈ pt'.rows :=
  (C7_boolean_rewrite dbConformant prefT64 rfl (by decide)).1

theorem probeAuto_none_spec (c : Conn) (pt : PrefTable) (ht : HistTable)
    (hp : c.cur.prefs = some pt) (hh : c.cur.hist = some ht)
    (hpid : ∀ r ∈ pt.rows, r.user_id ≠ testUserId) :
    ∃ pt' ht', (probeAuto Faults.none c).2.committed.prefs = some pt' ∧
      (probeAuto Faults.none c).2.committed.hist = some ht' ∧
      (probeAuto Faults.none c).2.committed.subs = c.cur.subs ∧
      pt'.userIdType = pt.userIdType ∧ ht'.userIdType = ht.userIdType ∧
      (∀ r ∈ pt.rows, r ∈ pt'.rows) ∧
      ht'.rows = (ht.rows ++ [(testUserId, "migration_test")]).filter
        (fun r => r.2 ≠ "migration_test") := by
  have hany : ¬∃ x ∈ pt.rows, x.user_id = testUserId := by
    rintro ⟨x, hx, he⟩
    exact hpid x hx he
  refine ⟨{ pt with rows := pt.rows ++ [⟨testUserId, .boolCell true, .boolCell true, .boolCell true⟩] },
    { ht with rows := (ht.rows ++ [(testUserId, "migration_test")]).filter (fun r => r.2 ≠ "migration_test") },
    ?_, ?_, ?_, rfl, rfl, ?_, rfl⟩ <;>
    [skip; skip; skip; exact fun r hr => by simp [hr]] <;>
    (unfold probeAuto;
     simp [hp, hh, emit, setPrefs, setHist, doCommit, Faults.none, if_neg hany])

/-- Claim C1 amended: the in-place reconciler
(`auto_migrate_notification_tables`) never deletes rows: after a
fault-free run every present managed table's `user_id` column reports an
acceptable 64-bit type, every pre-existing `notification_preferences`
row not owned by the probe survives unchanged, the pre-existing
`notification_history` rows (none of which carry the probe's
`migration_test` tag) survive unchanged, and `post_subscriptions` rows
are exactly preserved.  The recreation path of `fix_notification_schema`
does not preserve rows (see the counterexample). -/
theorem C1_amended (db : DB) (pt : PrefTable) (ht : HistTable) (st : SubsTable)
    (hp : db.prefs = some pt) (hh : db.hist = some ht) (hs : db.subs = some st)
    (hpid : ∀ r ∈ pt.rows, r.user_id ≠ testUserId)
    (hnt : ∀ r ∈ ht.rows, r.2 ≠ "migration_test") :
    ∃ pt' ht' st',
      (auto_migrate_notification_tables true Faults.none db).2.committed.prefs =
        some pt' ∧
      (auto_migrate_notification_tables true Faults.none db).2.committed.hist =
        some ht' ∧
      (auto_migrate_notification_tables true Faults.none db).2.committed.subs =
        some st' ∧
      acceptableType pt'.userIdType = true ∧ acceptableType ht'.userIdType = true ∧
      acceptableType st'.userIdType = true ∧
      (∀ r ∈ pt.rows, r ∈ pt'.rows) ∧ ht'.rows = ht.rows ∧ st'.rows = st.rows := by
  obtain ⟨hcur, hcom⟩ := detectLoop_state Faults.none tablesToCheck (Conn.init db)
  rcases hdet : detectLoop Faults.none tablesToCheck (Conn.init db) with ⟨needed, c⟩
  rw [hdet] at hcur hcom
  simp only [Conn.init] at hcur hcom
  have hrun : (auto_migrate_notification_tables true Faults.none db).2 =
      if !needed then c
      else (probeAuto Faults.none (doCommit (migrateSubsAuto Faults.none
        (migrateHistAuto Faults.none (migratePrefsAuto Faults.none c))))).2 := by
    unfold auto_migrate_notification_tables
    have hcf : Faults.none.connectionFails = false := rfl
    simp only [hcf, hdet, Bool.not_true, Bool.false_eq_true, if_false]
    rcases needed with _ | _ <;> simp
  rcases needed with _ | _
  · rw [hrun]
    simp only [Bool.not_false, if_true]
    have hconf := detect_false_conf Faults.none tablesToCheck (Conn.init db)
      (fun t _ => rfl) (by rw [hdet])
    simp only [Conn.init] at hconf
    have a1 : acceptableType pt.userIdType = true := by
      have := hconf "notification_preferences" (by simp [tablesToCheck])
      simpa [tableConformant, userIdTypeOf, hp] using this
    have a2 : acceptableType ht.userIdType = true := by
      have := hconf "notification_history" (by simp [tablesToCheck])
      simpa [tableConformant, userIdTypeOf, hh] using this
    have a3 : acceptableType st.userIdType = true := by
      have := hconf "post_subscriptions" (by simp [tablesToCheck])
      simpa [tableConformant, userIdTypeOf, hs] using this
    exact ⟨pt, ht, st, by rw [hcom, hp], by rw [hcom, hh], by rw [hcom, hs],
      a1, a2, a3, fun r hr => hr, rfl, rfl⟩
  · rw [hrun]
    simp only [Bool.not_true, Bool.false_eq_true, if_false]
    -- state after the three repair blocks
    have hP := migratePrefsAuto_rows Faults.none c
    rw [hcur, hp] at hP
    obtain ⟨ptB, hptB, hrowsB⟩ : ∃ ptB,
        (migratePrefsAuto Faults.none c).cur.prefs = some ptB ∧ ptB.rows = pt.rows := by
      rcases hx : (migratePrefsAuto Faults.none c).cur.prefs with _ | ptB
      · simp [hx] at hP
      · rw [hx] at hP
        exact ⟨ptB, rfl, by simpa using hP⟩
    have haccB := migratePrefsAuto_conf c ptB hptB
    have hfr1 := migratePrefsAuto_frame Faults.none c
    have hH := migrateHistAuto_rows Faults.none (migratePrefsAuto Faults.none c)
    rw [hfr1.1, hcur, hh] at hH
    obtain ⟨htB, hhtB, hrowsH⟩ : ∃ htB,
        (migrateHistAuto Faults.none (migratePrefsAuto Faults.none c)).cur.hist =
          some htB ∧ htB.rows = ht.rows := by
      rcases hx : (migrateHistAuto Faults.none
          (migratePrefsAuto Faults.none c)).cur.hist with _ | htB
      · simp [hx] at hH
      · rw [hx] at hH
        exact ⟨htB, rfl, by simpa using hH⟩
    have haccH := migrateHistAuto_conf (migratePrefsAuto Faults.none c) htB hhtB
    have hfr2 := migrateHistAuto_frame Faults.none (migratePrefsAuto Faults.none c)
    have hS := migrateSubsAuto_rows Faults.none (migrateHistAuto Faults.none
      (migratePrefsAuto Faults.none c))
    rw [hfr2.2.1, hfr1.2.1, hcur, hs] at hS
    obtain ⟨stB, hstB, hrowsS⟩ : ∃ stB,
        (migrateSubsAuto Faults.none (migrateHistAuto Faults.none
          (migratePrefsAuto Faults.none c))).cur.subs = some stB ∧
          stB.rows = st.rows := by
      rcases hx : (migrateSubsAuto Faults.none (migrateHistAuto Faults.none
          (migratePrefsAuto Faults.none c))).cur.subs with _ | stB
      · simp [hx] at hS
      · rw [hx] at hS
        exact ⟨stB, rfl, by simpa using hS⟩
    have haccS := migrateSubsAuto_conf (migrateHistAuto Faults.none
      (migratePrefsAuto Faults.none c)) stB hstB
    have hfr3 := migrateSubsAuto_frame Faults.none (migrateHistAuto Faults.none
      (migratePrefsAuto Faults.none c))
    -- probe on the committed repair state
    have hpid2 : ∀ r ∈ ptB.rows, r.user_id ≠ testUserId := by
      rw [hrowsB]; exact hpid
    obtain ⟨pt', ht', hpt', hht', hsub', hty1, hty2, hmem, hhrows⟩ :=
      probeAuto_none_spec (doCommit (migrateSubsAuto Faults.none
        (migrateHistAuto Faults.none (migratePrefsAuto Faults.none c)))) ptB htB
        (by simp only [doCommit]; rw [hfr3.1, hfr2.1]; exact hptB)
        (by simp only [doCommit]; rw [hfr3.2.1]; exact hhtB)
        hpid2
    refine ⟨pt', ht', stB, hpt', hht', ?_, by rw [hty1]; exact haccB,
      by rw [hty2]; exact haccH, haccS, ?_, ?_, hrowsS⟩
    · rw [hsub']
      simp only [doCommit]
      exact hstB
    · intro r hr
      exact hmem r (by rw [hrowsB]; exact hr)
    · rw [hhrows, hrowsH]
      rw [List.filter_append]
      have h2 : ([(testUserId, "migration_test")] : List (Int × String)).filter
          (fun r => r.2 ≠ "migration_test") = [] := by simp
      rw [h2, List.append_nil, List.filter_eq_self.mpr]
      intro a ha
      simpa using hnt a ha

/-- Claim C1 witness: a conformant database with one row per table. -/
theorem C1_witness :
    ∃ pt' ht' st',
      (auto_migrate_notification_tables true Faults.none dbConformant).2.committed.prefs =
        some pt' ∧
      (auto_migrate_notification_tables true Faults.none dbConformant).2.committed.hist =
        some ht' ∧
      (auto_migrate_notification_tables true Faults.none dbConformant).2.committed.subs =
        some st' ∧
      acceptableType pt'.userIdType = true ∧ acceptableType ht'.userIdType = true ∧
      acceptableType st'.userIdType = true ∧
      (∀ r ∈ prefT64.rows, r ∈ pt'.rows) ∧ ht'.rows = histT64.rows ∧
      st'.rows = subsT64.rows :=
  C1_amended dbConformant prefT64 histT64 subsT64 rfl rfl rfl (by decide) (by decide)

theorem auto_committed_conf (db : DB) :
    tableConformant (auto_migrate_notification_tables true Faults.none db).2.committed
      "notification_preferences" = true ∧
    tableConformant (auto_migrate_notification_tables true Faults.none db).2.committed
      "notification_history" = true ∧
    tableConformant (auto_migrate_notification_tables true Faults.none db).2.committed
      "post_subscriptions" = true := by
  obtain ⟨hcur, hcom⟩ := detectLoop_state Faults.none tablesToCheck (Conn.init db)
  rcases hdet : detectLoop Faults.none tablesToCheck (Conn.init db) with ⟨needed, c⟩
  rw [hdet] at hcur hcom
  simp only [Conn.init] at hcur hcom
  have hrun : (auto_migrate_notification_tables true Faults.none db).2 =
      if !needed then c
      else (probeAuto Faults.none (doCommit (migrateSubsAuto Faults.none
        (migrateHistAuto Faults.none (migratePrefsAuto Faults.none c))))).2 := by
    unfold auto_migrate_notification_tables
    have hcf : Faults.none.connectionFails = false := rfl
    simp only [hcf, hdet, Bool.not_true, Bool.false_eq_true, if_false]
    rcases needed with _ | _ <;> simp
  rcases needed with _ | _
  · rw [hrun]
    simp only [Bool.not_false, if_true]
    have hconf := detect_false_conf Faults.none tablesToCheck (Conn.init db)
      (fun t _ => rfl) (by rw [hdet])
    simp only [Conn.init] at hconf
    rw [hcom]
    exact ⟨hconf _ (by simp [tablesToCheck]), hconf _ (by simp [tablesToCheck]),
      hconf _ (by simp [tablesToCheck])⟩
  · rw [hrun]
    simp only [Bool.not_true, Bool.false_eq_true, if_false]
    have hfr1 := migratePrefsAuto_frame Faults.none c
    have hfr2 := migrateHistAuto_frame Faults.none (migratePrefsAuto Faults.none c)
    have hfr3 := migrateSubsAuto_frame Faults.none (migrateHistAuto Faults.none
      (migratePrefsAuto Faults.none c))
    have t1 : tableConformant (migrateSubsAuto Faults.none (migrateHistAuto Faults.none
        (migratePrefsAuto Faults.none c))).cur "notification_preferences" = true := by
      rcases hx : (migratePrefsAuto Faults.none c).cur.prefs with _ | ptB
      · simp [tableConformant, userIdTypeOf, hfr3.1, hfr2.1, hx]
      · have := migratePrefsAuto_conf c ptB hx
        simp [tableConformant, userIdTypeOf, hfr3.1, hfr2.1, hx, this]
    have t2 : tableConformant (migrateSubsAuto Faults.none (migrateHistAuto Faults.none
        (migratePrefsAuto Faults.none c))).cur "notification_history" = true := by
      rcases hx : (migrateHistAuto Faults.none
          (migratePrefsAuto Faults.none c)).cur.hist with _ | htB
      · simp [tableConformant, userIdTypeOf, hfr3.2.1, hx]
      · have := migrateHistAuto_conf (migratePrefsAuto Faults.none c) htB hx
        simp [tableConformant, userIdTypeOf, hfr3.2.1, hx, this]
    have t3 : tableConformant (migrateSubsAuto Faults.none (migrateHistAuto Faults.none
        (migratePrefsAuto Faults.none c))).cur "post_subscriptions" = true := by
      rcases hx : (migrateSubsAuto Faults.none (migrateHistAuto Faults.none
          (migratePrefsAuto Faults.none c))).cur.subs with _ | stB
      · simp [tableConformant, userIdTypeOf, hx]
      · have := migrateSubsAuto_conf (migrateHistAuto Faults.none
          (migratePrefsAuto Faults.none c)) stB hx
        simp [tableConformant, userIdTypeOf, hx, this]
    exact probeAuto_committed_conf Faults.none _
      (by simpa [doCommit] using t1) (by simpa [doCommit] using t2)
      (by simpa [doCommit] using t3) (by simpa [doCommit] using t1)
      (by simpa [doCommit] using t2) (by simpa [doCommit] using t3)

theorem auto_conf_nd (db : DB) (f : Faults)
    (h1 : tableConformant db "notification_preferences" = true)
    (h2 : tableConformant db "notification_history" = true)
    (h3 : tableConformant db "post_subscriptions" = true) :
    (auto_migrate_notification_tables true f db).2.tr.all
      (fun e => !e.isDestructive) = true := by
  by_cases hcf : f.connectionFails = true
  · unfold auto_migrate_notification_tables
    simp [hcf, Conn.init]
  · have hneed : (detectLoop f tablesToCheck (Conn.init db)).1 = false := by
      refine detect_conf_false f tablesToCheck (Conn.init db) ?_
      intro t ht
      simp only [tablesToCheck, List.mem_cons, List.mem_singleton] at ht
      rcases ht with rfl | rfl | rfl | h0
      · simpa [Conn.init] using h1
      · simpa [Conn.init] using h2
      · simpa [Conn.init] using h3
      · simp at h0
    obtain ⟨l, hl, hall⟩ := detectLoop_tr f tablesToCheck (Conn.init db)
    have hrun : (auto_migrate_notification_tables true f db).2 =
        (detectLoop f tablesToCheck (Conn.init db)).2 := by
      unfold auto_migrate_notification_tables
      rcases hdet : detectLoop f tablesToCheck (Conn.init db) with ⟨needed, c⟩
      rw [hdet] at hneed
      simp only at hneed
      subst hneed
      simp [hcf, hdet]
    rw [hrun, hl]
    simp only [Conn.init, List.nil_append]
    rw [List.all_eq_true] at hall ⊢
    intro e he
    have := hall e he
    rcases e <;> simp_all [Event.isDestructive]

theorem fix_committed_conf (db : DB) :
    tableConformant (fix_notification_schema true Faults.none db).2.committed
      "notification_preferences" = true ∧
    tableConformant (fix_notification_schema true Faults.none db).2.committed
      "notification_history" = true ∧
    tableConformant (fix_notification_schema true Faults.none db).2.committed
      "post_subscriptions" = true := by
  obtain ⟨c1, heq1, hh1, hs1, ht1, hcm1, hconf1, _, _⟩ := fixStep_prefs_ok (Conn.init db)
  obtain ⟨c2, heq2, hp2, hs2, ht2, hcm2, hconf2, _, _⟩ := fixStep_hist_ok c1
  obtain ⟨c3, heq3, hp3, hh3, ht3, hcm3, hconf3, _, _⟩ := fixStep_subs_ok c2
  have heq4 := fixStep_trending_ok c3
  have hloop : fixLoop Faults.none tablesToCheckFix (Conn.init db) =
      .ok (emit c3 (.tableExistsQuery "trending_cache")) := by
    simp only [tablesToCheckFix, fixLoop, heq1, heq2, heq3, heq4]
  have hrun : fix_notification_schema true Faults.none db =
      (true, probeFix Faults.none (doCommit (emit c3
        (.tableExistsQuery "trending_cache")))) := by
    unfold fix_notification_schema
    have hcf : Faults.none.connectionFails = false := rfl
    simp [hcf, hloop]
  have t1 : tableConformant c3.cur "notification_preferences" = true := by
    rcases hx : c1.cur.prefs with _ | ptB
    · simp [tableConformant, userIdTypeOf, hp3, hp2, hx]
    · simp [tableConformant, userIdTypeOf, hp3, hp2, hx, hconf1 ptB hx]
  have t2 : tableConformant c3.cur "notification_history" = true := by
    rcases hx : c2.cur.hist with _ | htB
    · simp [tableConformant, userIdTypeOf, hh3, hx]
    · simp [tableConformant, userIdTypeOf, hh3, hx, hconf2 htB hx]
  have t3 : tableConformant c3.cur "post_subscriptions" = true := by
    rcases hx : c3.cur.subs with _ | stB
    · simp [tableConformant, userIdTypeOf, hx]
    · simp [tableConformant, userIdTypeOf, hx, hconf3 stB hx]
  rw [hrun]
  exact probeFix_committed_conf Faults.none _
    (by simpa [doCommit, emit] using t1) (by simpa [doCommit, emit] using t2)
    (by simpa [doCommit, emit] using t3) (by simpa [doCommit, emit] using t1)
    (by simpa [doCommit, emit] using t2) (by simpa [doCommit, emit] using t3)

theorem fix_conf_nd (db : DB) (f : Faults)
    (h1 : tableConformant db "notification_preferences" = true)
    (h2 : tableConformant db "notification_history" = true)
    (h3 : tableConformant db "post_subscriptions" = true) :
    ∀ e ∈ (fix_notification_schema true f db).2.tr, e.isDestructive = false := by
  by_cases hcf : f.connectionFails = true
  · unfold fix_notification_schema
    simp [hcf, Conn.init]
  · unfold fix_notification_schema
    simp only [hcf, Bool.not_true, Bool.false_eq_true, if_false, Bool.not_false, if_true]
    have hloop : fixLoop f tablesToCheckFix (Conn.init db) =
        match fixTableStep f (Conn.init db) "notification_preferences" with
        | .error c => .error c
        | .ok c => fixLoop f ["notification_history", "post_subscriptions",
            "trending_cache"] c := by
      simp [fixLoop, tablesToCheckFix]
    rw [hloop]
    have nd1 := fixStep_prefs_nd f (Conn.init db) (by simpa [Conn.init] using h1)
      (by simp [Conn.init])
    have hfrp := fixStep_prefs_frame f (Conn.init db)
    rcases e1 : fixTableStep f (Conn.init db) "notification_preferences" with c1 | c1
    · rw [e1] at nd1
      simpa [exConn] using nd1
    · rw [e1] at nd1 hfrp
      simp only [exConn] at nd1 hfrp
      have hc1h : tableConformant c1.cur "notification_history" = true := by
        have hx := hfrp.1
        simp only [Conn.init] at hx
        simp only [tableConformant, userIdTypeOf, hx]
        simpa [tableConformant, userIdTypeOf] using h2
      have nd2 := fixStep_hist_nd f c1 hc1h nd1
      have hfrh := fixStep_hist_frame f c1
      dsimp only
      have hloop2 : fixLoop f ["notification_history", "post_subscriptions",
          "trending_cache"] c1 =
          match fixTableStep f c1 "notification_history" with
          | .error c => .error c
          | .ok c => fixLoop f ["post_subscriptions", "trending_cache"] c := by
        simp [fixLoop]
      rw [hloop2]
      rcases e2 : fixTableStep f c1 "notification_history" with c2 | c2
      · rw [e2] at nd2
        simpa [exConn] using nd2
      · rw [e2] at nd2 hfrh
        simp only [exConn] at nd2 hfrh
        have hc2s : tableConformant c2.cur "post_subscriptions" = true := by
          have ha := hfrh.2.1
          have hb := hfrp.2.1
          simp only [Conn.init] at hb
          simp only [tableConformant, userIdTypeOf, ha, hb]
          simpa [tableConformant, userIdTypeOf] using h3
        have nd3 := fixStep_subs_nd f c2 hc2s nd2
        dsimp only
        have hloop3 : fixLoop f ["post_subscriptions", "trending_cache"] c2 =
            match fixTableStep f c2 "post_subscriptions" with
            | .error c => .error c
            | .ok c => fixLoop f ["trending_cache"] c := by
          simp [fixLoop]
        rw [hloop3]
        rcases e3 : fixTableStep f c2 "post_subscriptions" with c3 | c3
        · rw [e3] at nd3
          simpa [exConn] using nd3
        · rw [e3] at nd3
          simp only [exConn] at nd3
          have nd4 := fixStep_trending_nd f c3 nd3
          dsimp only
          have hloop4 : fixLoop f ["trending_cache"] c3 =
              match fixTableStep f c3 "trending_cache" with
              | .error c => .error c
              | .ok c => .ok c := by
            simp [fixLoop]
          rw [hloop4]
          rcases e4 : fixTableStep f c3 "trending_cache" with c4 | c4
          · rw [e4] at nd4
            simpa [exConn] using nd4
          · rw [e4] at nd4
            simp only [exConn] at nd4
            dsimp only
            exact probeFix_nd f _ (doCommit_nd _ nd4)

/-- Claim C2 amended: in `auto_migrate_notification_tables`, a table whose
observed `user_id` type is already acceptable receives zero DDL
statements, whatever else fails.  `fix_notification_schema` issues
boolean-default ALTERs against a conformant `notification_preferences`
(counterexample), so "zero DDL" fails there; what does hold is that a
second consecutive fault-free run of either reconciler performs no
destructive statement (no table drop, no row delete). -/
theorem C2_amended (db : DB) (f : Faults) :
    (∀ pt, db.prefs = some pt → acceptableType pt.userIdType = true →
       ∀ e, ddlForTable "notification_preferences" e = true →
         e ∉ (auto_migrate_notification_tables true f db).2.tr) ∧
    (∀ ht, db.hist = some ht → acceptableType ht.userIdType = true →
       ∀ e, ddlForTable "notification_history" e = true →
         e ∉ (auto_migrate_notification_tables true f db).2.tr) ∧
    (∀ st, db.subs = some st → acceptableType st.userIdType = true →
       ∀ e, ddlForTable "post_subscriptions" e = true →
         e ∉ (auto_migrate_notification_tables true f db).2.tr) ∧
    ((auto_migrate_notification_tables true Faults.none
        (auto_migrate_notification_tables true Faults.none db).2.committed).2.tr.all
        (fun e => !e.isDestructive) = true) ∧
    (∀ e ∈ (fix_notification_schema true Faults.none
        (fix_notification_schema true Faults.none db).2.committed).2.tr,
        e.isDestructive = false) := by
  have hsecond : (auto_migrate_notification_tables true Faults.none
      (auto_migrate_notification_tables true Faults.none db).2.committed).2.tr.all
      (fun e => !e.isDestructive) = true := by
    obtain ⟨a1, a2, a3⟩ := auto_committed_conf db
    exact auto_conf_nd _ Faults.none a1 a2 a3
  have hsecondF : ∀ e ∈ (fix_notification_schema true Faults.none
      (fix_notification_schema true Faults.none db).2.committed).2.tr,
      e.isDestructive = false := by
    obtain ⟨a1, a2, a3⟩ := fix_committed_conf db
    exact fix_conf_nd _ Faults.none a1 a2 a3
  by_cases hcf : f.connectionFails = true
  · refine ⟨?_, ?_, ?_, hsecond, hsecondF⟩ <;>
      (intro x hx hacc e hd;
       unfold auto_migrate_notification_tables;
       simp [hcf, Conn.init])
  · obtain ⟨l, hl, hall⟩ := detectLoop_tr f tablesToCheck (Conn.init db)
    obtain ⟨hcur, hcom⟩ := detectLoop_state f tablesToCheck (Conn.init db)
    rcases hdet : detectLoop f tablesToCheck (Conn.init db) with ⟨needed, c⟩
    rw [hdet] at hl hcur hcom
    simp only [Conn.init] at hl hcur hcom
    have hnotdet : ∀ e : Event, e.isDDL = true → e ∉ c.tr := by
      intro e hd
      rw [hl]
      refine List.not_mem_append (by simp) (not_mem_of_all hall ?_)
      rcases e <;> simp_all [Event.isDDL]
    have hddl : ∀ t : String, ∀ e : Event, ddlForTable t e = true → e.isDDL = true := by
      intro t e hd
      rcases e <;> simp_all [ddlForTable, Event.isDDL]
    have hrun : (auto_migrate_notification_tables true f db).2 =
        if !needed then c
        else (probeAuto f (doCommit (migrateSubsAuto f (migrateHistAuto f
          (migratePrefsAuto f c))))).2 := by
      unfold auto_migrate_notification_tables
      simp only [hcf, hdet, Bool.not_true, Bool.false_eq_true, if_false]
      rcases needed with _ | _ <;> simp
    rcases needed with _ | _
    · rw [hrun]
      simp only [Bool.not_false, if_true]
      exact ⟨fun _ _ _ e hd => hnotdet e (hddl _ e hd),
        fun _ _ _ e hd => hnotdet e (hddl _ e hd),
        fun _ _ _ e hd => hnotdet e (hddl _ e hd), hsecond, hsecondF⟩
    · rw [hrun]
      simp only [Bool.not_true, Bool.false_eq_true, if_false]
      refine ⟨?_, ?_, ?_, hsecond, hsecondF⟩
      · intro pt hp hacc e hd
        have hc1 : tableConformant c.cur "notification_preferences" = true := by
          simp [tableConformant, userIdTypeOf, hcur, hp, hacc]
        refine probeAuto_not_mem _ _ _ ?_ (by rintro rfl; simp [ddlForTable] at hd)
          (by rintro rfl; simp [ddlForTable] at hd)
          (by rintro rfl; simp [ddlForTable] at hd)
          (by rintro rfl; simp [ddlForTable] at hd)
        refine doCommit_not_mem _ _ ?_ (by rintro rfl; simp [ddlForTable] at hd)
        refine migrateSubsAuto_not_mem _ _ _ ?_
          (by rintro rfl; simp [ddlForTable] at hd)
          (by rintro rfl; simp [ddlForTable] at hd)
          (by rintro rfl; simp [ddlForTable] at hd)
        refine migrateHistAuto_not_mem _ _ _ ?_
          (by rintro rfl; simp [ddlForTable] at hd)
          (by rintro rfl; simp [ddlForTable] at hd)
          (by rintro rfl; simp [ddlForTable] at hd)
        exact migratePrefsAuto_not_mem_conf f c _ hc1 (hnotdet e (hddl _ e hd))
          (by rintro rfl; simp [ddlForTable] at hd)
          (by rintro rfl; simp [ddlForTable] at hd)
      · intro ht hp hacc e hd
        have hfr := migratePrefsAuto_frame f c
        have hc1 : tableConformant (migratePrefsAuto f c).cur
            "notification_history" = true := by
          simp [tableConformant, userIdTypeOf, hfr.1, hcur, hp, hacc]
        refine probeAuto_not_mem _ _ _ ?_ (by rintro rfl; simp [ddlForTable] at hd)
          (by rintro rfl; simp [ddlForTable] at hd)
          (by rintro rfl; simp [ddlForTable] at hd)
          (by rintro rfl; simp [ddlForTable] at hd)
        refine doCommit_not_mem _ _ ?_ (by rintro rfl; simp [ddlForTable] at hd)
        refine migrateSubsAuto_not_mem _ _ _ ?_
          (by rintro rfl; simp [ddlForTable] at hd)
          (by rintro rfl; simp [ddlForTable] at hd)
          (by rintro rfl; simp [ddlForTable] at hd)
        refine migrateHistAuto_not_mem_conf _ _ _ hc1 ?_
          (by rintro rfl; simp [ddlForTable] at hd)
          (by rintro rfl; simp [ddlForTable] at hd)
        exact migratePrefsAuto_not_mem f c _ (hnotdet e (hddl _ e hd))
          (by rintro rfl; simp [ddlForTable] at hd)
          (by rintro rfl; simp [ddlForTable] at hd)
          (by rintro rfl; simp [ddlForTable] at hd)
          (by rintro rfl; simp [ddlForTable] at hd)
          (by rintro rfl; simp [ddlForTable] at hd)
      · intro st hp hacc e hd
        have hfr1 := migratePrefsAuto_frame f c
        have hfr2 := migrateHistAuto_frame f (migratePrefsAuto f c)
        have hc1 : tableConformant (migrateHistAuto f (migratePrefsAuto f c)).cur
            "post_subscriptions" = true := by
          simp [tableConformant, userIdTypeOf, hfr2.2.1, hfr1.2.1, hcur, hp, hacc]
        refine probeAuto_not_mem _ _ _ ?_ (by rintro rfl; simp [ddlForTable] at hd)
          (by rintro rfl; simp [ddlForTable] at hd)
          (by rintro rfl; simp [ddlForTable] at hd)
          (by rintro rfl; simp [ddlForTable] at hd)
        refine doCommit_not_mem _ _ ?_ (by rintro rfl; simp [ddlForTable] at hd)
        refine migrateSubsAuto_not_mem_conf _ _ _ hc1 ?_
          (by rintro rfl; simp [ddlForTable] at hd)
          (by rintro rfl; simp [ddlForTable] at hd)
        refine migrateHistAuto_not_mem _ _ _ ?_
          (by rintro rfl; simp [ddlForTable] at hd)
          (by rintro rfl; simp [ddlForTable] at hd)
          (by rintro rfl; simp [ddlForTable] at hd)
        exact migratePrefsAuto_not_mem f c _ (hnotdet e (hddl _ e hd))
          (by rintro rfl; simp [ddlForTable] at hd)
          (by rintro rfl; simp [ddlForTable] at hd)
          (by rintro rfl; simp [ddlForTable] at hd)
          (by rintro rfl; simp [ddlForTable] at hd)
          (by rintro rfl; simp [ddlForTable] at hd)

/-- Claim C2 witness: on a conformant database the in-place script issues
no DDL against `notification_preferences`. -/
theorem C2_witness :
    (Event.alterUserIdType "notification_preferences") ∉
      (auto_migrate_notification_tables true Faults.none dbConformant).2.tr ∧
    (Event.dropTable "notification_preferences") ∉
      (auto_migrate_notification_tables true Faults.none dbConformant).2.tr ∧
    ∀ e ∈ (fix_notification_schema true Faults.none
        (fix_notification_schema true Faults.none dbConformant).2.committed).2.tr,
      e.isDestructive = false :=
  ⟨(C2_amended dbConformant Faults.none).1 prefT64 rfl (by decide) _ (by decide),
   (C2_amended dbConformant Faults.none).1 prefT64 rfl (by decide) _ (by decide),
   (C2_amended dbConformant Faults.none).2.2.2.2⟩
